import Mathlib

/-!
Verification development for the uniswap-v3-simulator repository.

The Go source stores all numeric quantities as `shopspring/decimal`
arbitrary-precision decimals.  We embed decimals as rationals (`ℚ`):
addition, subtraction, multiplication and comparisons of decimals are
exact, so they map to the rational operations directly.  The two
operations that are not exact are modelled explicitly:

* `Decimal.Div` divides and rounds the quotient to
  `DivisionPrecision = 16` decimal places, rounding half away from zero
  (`decDiv` below);
* `Decimal.RoundDown(0)` truncates towards zero (`decRoundDown0`).

`Decimal.BigInt()` (used at the swap-step boundary) also truncates
towards zero (`decTrunc`).

Go mutates structures in place through pointers; handlers are embedded
as functions returning the updated state together with an optional
error message, mirroring the order of mutations and early returns of
the source.
-/

/-- Truncation towards zero, the behaviour of `decimal.RoundDown(0)`
and of `Decimal.BigInt()`. -/
def decTrunc (q : ℚ) : ℤ :=
  if 0 ≤ q then ⌊q⌋ else ⌈q⌉

/-- `decimal.RoundDown(0)`: round towards zero, result as a decimal. -/
def decRoundDown0 (q : ℚ) : ℚ :=
  (decTrunc q : ℚ)

/-- Round a rational to the nearest integer, ties away from zero: the
rounding mode of `decimal.DivRound`. -/
def roundHalfAway (q : ℚ) : ℤ :=
  if 0 ≤ q then ⌊q + 1/2⌋ else ⌈q - 1/2⌉

/-- `decimal.Div`: divide and round the quotient to
`DivisionPrecision = 16` decimal places, half away from zero. -/
def decDiv (x y : ℚ) : ℚ :=
  (roundHalfAway (x / y * 10 ^ 16) : ℚ) / 10 ^ 16

/-- Modelled from the spec: the constant `Q128 = 2^128` (the constants
file of the repository is not part of the sources given). -/
def Q128 : ℚ := 2 ^ 128

/-- Modelled from the spec: the U128 ceiling used by liquidity
arithmetic. -/
def MaxUint128 : ℚ := 2 ^ 128 - 1

/-- Modelled from the spec: `addDelta(L, ΔL) → L' or overflow error`;
fails with a liquidity underflow when a negative delta exceeds the
current liquidity, and with an overflow when the result exceeds U128
(the function itself is not part of the sources given). -/
def AddDelta (l d : ℚ) : Except String ℚ :=
  if d < 0 then
    if l + d < 0 then Except.error "LiquidityUnderflow"
    else Except.ok (l + d)
  else
    if MaxUint128 < l + d then Except.error "LiquidityOverflow"
    else Except.ok (l + d)

/-- Modelled from the spec: `LiquidityAddDelta` as used by
`TokenPosition`; same semantics as `AddDelta`. -/
def LiquidityAddDelta (l d : ℚ) : Except String ℚ :=
  AddDelta l d

/-- Fee accrual expression of `token_position_manager.go`:
`fgi.Sub(last).Mul(liquidity).Div(Q128).RoundDown(0)`. -/
def feeAccrual (fgi last liquidity : ℚ) : ℚ :=
  decRoundDown0 (decDiv ((fgi - last) * liquidity) Q128)

/-- `TokenPosition` of `token_position_manager.go`. -/
structure TokenPosition where
  TokenID : ℕ
  Owner : String
  Pool : String
  TickLower : ℤ
  TickUpper : ℤ
  Liquidity : ℚ
  FeeGrowthInside0LastX128 : ℚ
  FeeGrowthInside1LastX128 : ℚ
  TokensOwed0 : ℚ
  TokensOwed1 : ℚ

/-- `NewTokenPosition`. -/
def NewTokenPosition (tokenID : ℕ) (owner pool : String)
    (tickLower tickUpper : ℤ) : TokenPosition :=
  { TokenID := tokenID
    Owner := owner
    Pool := pool
    TickLower := tickLower
    TickUpper := tickUpper
    Liquidity := 0
    FeeGrowthInside0LastX128 := 0
    FeeGrowthInside1LastX128 := 0
    TokensOwed0 := 0
    TokensOwed1 := 0 }

namespace TokenPosition

/-- `TokenPosition.IncreaseLiquidity`.  Returns the position after the
call together with the error, if any; on an error path the Go code has
not yet mutated the receiver, so the input position is returned. -/
def IncreaseLiquidity (p : TokenPosition)
    (liquidityDelta feeGrowthInside0X128 feeGrowthInside1X128 : ℚ) :
    TokenPosition × Option String :=
  if liquidityDelta = 0 ∨ liquidityDelta < 0 then
    (p, some "liquidity delta must be positive")
  else
    let tokensOwed0 :=
      feeAccrual feeGrowthInside0X128 p.FeeGrowthInside0LastX128 p.Liquidity
    let tokensOwed1 :=
      feeAccrual feeGrowthInside1X128 p.FeeGrowthInside1LastX128 p.Liquidity
    match LiquidityAddDelta p.Liquidity liquidityDelta with
    | Except.error e => (p, some e)
    | Except.ok liquidityNext =>
      let p1 := { p with
        Liquidity := liquidityNext
        FeeGrowthInside0LastX128 := feeGrowthInside0X128
        FeeGrowthInside1LastX128 := feeGrowthInside1X128 }
      if 0 < tokensOwed0 ∨ 0 < tokensOwed1 then
        ({ p1 with
            TokensOwed0 := p1.TokensOwed0 + tokensOwed0
            TokensOwed1 := p1.TokensOwed1 + tokensOwed1 }, none)
      else
        (p1, none)

/-- `TokenPosition.DecreaseLiquidity`. -/
def DecreaseLiquidity (p : TokenPosition)
    (liquidityDelta feeGrowthInside0X128 feeGrowthInside1X128
      amount0 amount1 : ℚ) :
    TokenPosition × Option String :=
  if liquidityDelta = 0 ∨ 0 < liquidityDelta then
    (p, some "liquidity delta must be negative")
  else if p.Liquidity < |liquidityDelta| then
    (p, some "liquidity underflow")
  else
    let tokensOwed0 :=
      feeAccrual feeGrowthInside0X128 p.FeeGrowthInside0LastX128 p.Liquidity
    let tokensOwed1 :=
      feeAccrual feeGrowthInside1X128 p.FeeGrowthInside1LastX128 p.Liquidity
    match LiquidityAddDelta p.Liquidity liquidityDelta with
    | Except.error e => (p, some e)
    | Except.ok liquidityNext =>
      ({ p with
          Liquidity := liquidityNext
          FeeGrowthInside0LastX128 := feeGrowthInside0X128
          FeeGrowthInside1LastX128 := feeGrowthInside1X128
          TokensOwed0 := p.TokensOwed0 + tokensOwed0 + amount0
          TokensOwed1 := p.TokensOwed1 + tokensOwed1 + amount1 }, none)

/-- `TokenPosition.Collect`: truncate the requested amounts at the owed
tokens and decrement.  Returns `(amount0, amount1, updated position)`. -/
def Collect (p : TokenPosition) (amount0Requested amount1Requested : ℚ) :
    ℚ × ℚ × TokenPosition :=
  let amount0 :=
    if p.TokensOwed0 < amount0Requested then p.TokensOwed0
    else amount0Requested
  let amount1 :=
    if p.TokensOwed1 < amount1Requested then p.TokensOwed1
    else amount1Requested
  (amount0, amount1,
    { p with
        TokensOwed0 := p.TokensOwed0 - amount0
        TokensOwed1 := p.TokensOwed1 - amount1 })

end TokenPosition

/-! ## Association-list embedding of Go maps

Go maps keyed by `uint64`/`string` are embedded as association lists;
`alookup` is map read, `aset` is map assignment (replace the entry if
the key is present, add it otherwise), `agetD` is a map read that
yields the zero value for a missing key. -/

/-- Map read. -/
def alookup {α β : Type} [DecidableEq α] : List (α × β) → α → Option β
  | [], _ => none
  | kv :: rest, k => if kv.1 = k then some kv.2 else alookup rest k

/-- Map assignment. -/
def aset {α β : Type} [DecidableEq α] : List (α × β) → α → β → List (α × β)
  | [], k, v => [(k, v)]
  | kv :: rest, k, v =>
    if kv.1 = k then (k, v) :: rest else kv :: aset rest k v

/-- Map read with a default for a missing key. -/
def agetD {α β : Type} [DecidableEq α] (m : List (α × β)) (k : α) (d : β) : β :=
  (alookup m k).getD d

/-- `TokenPositionManager` of `token_position_manager.go`. -/
structure TokenPositionManager where
  Positions : List (ℕ × TokenPosition)
  OwnerTokens : List (String × List ℕ)
  PoolTokens : List (String × List ℕ)

/-- `NewTokenPositionManager`. -/
def NewTokenPositionManager : TokenPositionManager :=
  { Positions := [], OwnerTokens := [], PoolTokens := [] }

namespace TokenPositionManager

/-- `CreatePosition`: create a fresh position and index it under its
owner and pool. -/
def CreatePosition (tpm : TokenPositionManager) (tokenID : ℕ)
    (owner pool : String) (tickLower tickUpper : ℤ) :
    TokenPositionManager × TokenPosition :=
  let position := NewTokenPosition tokenID owner pool tickLower tickUpper
  let tpm1 := { tpm with Positions := aset tpm.Positions tokenID position }
  let tpm2 := { tpm1 with
    OwnerTokens :=
      aset tpm1.OwnerTokens owner (agetD tpm1.OwnerTokens owner [] ++ [tokenID]) }
  let tpm3 := { tpm2 with
    PoolTokens :=
      aset tpm2.PoolTokens pool (agetD tpm2.PoolTokens pool [] ++ [tokenID]) }
  (tpm3, position)

/-- `GetPosition`. -/
def GetPosition (tpm : TokenPositionManager) (tokenID : ℕ) :
    Option TokenPosition :=
  alookup tpm.Positions tokenID

/-- `HandleMint`: increase an existing position, or create it first. -/
def HandleMint (tpm : TokenPositionManager) (tokenID : ℕ)
    (owner pool : String) (tickLower tickUpper : ℤ)
    (amount feeGrowthInside0X128 feeGrowthInside1X128 : ℚ) :
    TokenPositionManager × Option String :=
  match alookup tpm.Positions tokenID with
  | some position =>
    let (p1, e) := position.IncreaseLiquidity amount
      feeGrowthInside0X128 feeGrowthInside1X128
    ({ tpm with Positions := aset tpm.Positions tokenID p1 }, e)
  | none =>
    let (tpm1, position) :=
      tpm.CreatePosition tokenID owner pool tickLower tickUpper
    let (p1, e) := position.IncreaseLiquidity amount
      feeGrowthInside0X128 feeGrowthInside1X128
    ({ tpm1 with Positions := aset tpm1.Positions tokenID p1 }, e)

/-- `HandleIncreaseLiquidity`. -/
def HandleIncreaseLiquidity (tpm : TokenPositionManager) (tokenID : ℕ)
    (amount feeGrowthInside0X128 feeGrowthInside1X128 : ℚ) :
    TokenPositionManager × Option String :=
  match alookup tpm.Positions tokenID with
  | none => (tpm, some "position does not exist")
  | some position =>
    let (p1, e) := position.IncreaseLiquidity amount
      feeGrowthInside0X128 feeGrowthInside1X128
    ({ tpm with Positions := aset tpm.Positions tokenID p1 }, e)

/-- `HandleDecreaseLiquidity`: note the negation of `liquidityDelta`
before the call to `TokenPosition.DecreaseLiquidity`. -/
def HandleDecreaseLiquidity (tpm : TokenPositionManager) (tokenID : ℕ)
    (liquidityDelta feeGrowthInside0X128 feeGrowthInside1X128
      amount0 amount1 : ℚ) :
    TokenPositionManager × Option String :=
  match alookup tpm.Positions tokenID with
  | none => (tpm, some "position does not exist")
  | some position =>
    let (p1, e) := position.DecreaseLiquidity (-liquidityDelta)
      feeGrowthInside0X128 feeGrowthInside1X128 amount0 amount1
    ({ tpm with Positions := aset tpm.Positions tokenID p1 }, e)

/-- `HandleCollect`.  Returns the updated ledger, the collected
amounts and the error, if any. -/
def HandleCollect (tpm : TokenPositionManager) (tokenID : ℕ)
    (amount0Requested amount1Requested : ℚ) :
    TokenPositionManager × ℚ × ℚ × Option String :=
  match alookup tpm.Positions tokenID with
  | none => (tpm, 0, 0, some "position does not exist")
  | some position =>
    let (amount0, amount1, p1) :=
      position.Collect amount0Requested amount1Requested
    ({ tpm with Positions := aset tpm.Positions tokenID p1 }, amount0,
      amount1, none)

/-- Swap-remove of the source's `HandleTransfer`: overwrite index `i`
with the last element and drop the last element. -/
def swapRemoveAt (l : List ℕ) (i : ℕ) : List ℕ :=
  (l.set i (l.getLast?.getD 0)).dropLast

/-- `HandleTransfer`.  The source assigns `position.Owner = to`
*before* validating `oldOwner == from`, so a failed transfer leaves
the reassigned owner behind; the embedding reproduces that order. -/
def HandleTransfer (tpm : TokenPositionManager) (tokenID : ℕ)
    (from_ to_ : String) : TokenPositionManager × Option String :=
  match alookup tpm.Positions tokenID with
  | none => (tpm, some "position does not exist")
  | some position =>
    let oldOwner := position.Owner
    let tpm1 := { tpm with
      Positions := aset tpm.Positions tokenID { position with Owner := to_ } }
    if oldOwner ≠ from_ then
      (tpm1, some ("token owner mismatch: expected " ++ oldOwner ++
        ", got " ++ from_))
    else
      let oldOwnerTokens := agetD tpm1.OwnerTokens from_ []
      let tpm2 :=
        match oldOwnerTokens.findIdx? (fun tid => tid == tokenID) with
        | none => tpm1
        | some i => { tpm1 with
            OwnerTokens :=
              aset tpm1.OwnerTokens from_ (swapRemoveAt oldOwnerTokens i) }
      let tpm3 := { tpm2 with
        OwnerTokens :=
          aset tpm2.OwnerTokens to_ (agetD tpm2.OwnerTokens to_ [] ++ [tokenID]) }
      (tpm3, none)

end TokenPositionManager

/-! ## Pool-side data model

`Tick`, `TickManager`, the core `Position` and the constants live in
repository files that are not among the given sources; they are
modelled from the spec (sections 3, 4.2 and 6) where marked. -/

/-- Modelled from the spec: `MIN_TICK = -887272`. -/
def MIN_TICK : ℤ := -887272

/-- Modelled from the spec: `MAX_TICK = 887272`. -/
def MAX_TICK : ℤ := 887272

/-- Modelled from the spec: the lower bound constant on √price
(`MIN_SQRT_RATIO` in the source), with its canonical contract value. -/
def MinSqrtRatio : ℚ := 4295128739

/-- Modelled from the spec: the upper bound constant on √price
(`MAX_SQRT_RATIO` in the source), with its canonical contract value. -/
def MaxSqrtRatio : ℚ := 1461446703485210103287273052203988822378723970342

/-- Modelled from the spec: per-tick record (section 3). -/
structure Tick where
  LiquidityGross : ℚ
  LiquidityNet : ℚ
  FeeGrowthOutside0X128 : ℚ
  FeeGrowthOutside1X128 : ℚ

/-- A zero-valued tick record, the state of a freshly materialised
tick. -/
def NewTick : Tick :=
  { LiquidityGross := 0, LiquidityNet := 0,
    FeeGrowthOutside0X128 := 0, FeeGrowthOutside1X128 := 0 }

/-- The sparse tick map. -/
abbrev TickMap : Type := List (ℤ × Tick)

/-- Modelled from the spec: `Tick.cross` — flip `feeGrowthOutside`
against the globals and return the pre-existing `liquidityNet`.  (The
spec describes the subtraction as wrapping in U256; the decimal-based
source subtracts directly, which is what we embed.) -/
def Tick.Cross (t : Tick) (feeGrowthGlobal0X128 feeGrowthGlobal1X128 : ℚ) :
    Tick × ℚ :=
  ({ t with
      FeeGrowthOutside0X128 := feeGrowthGlobal0X128 - t.FeeGrowthOutside0X128
      FeeGrowthOutside1X128 := feeGrowthGlobal1X128 - t.FeeGrowthOutside1X128 },
    t.LiquidityNet)

/-- Largest initialised tick at or below `tick - 1`, aligned to the
spacing and inside the valid range.  Helper for the spec-modelled
`GetNextInitializedTick`. -/
def bestDownTick : TickMap → ℤ → ℤ → Option ℤ
  | [], _, _ => none
  | kv :: rest, tick, spacing =>
    let r := bestDownTick rest tick spacing
    if kv.1 ≤ tick - 1 ∧ kv.1 % spacing = 0 ∧
        MIN_TICK ≤ kv.1 ∧ kv.1 ≤ MAX_TICK then
      match r with
      | none => some kv.1
      | some m => some (max kv.1 m)
    else r

/-- Smallest initialised tick at or above `tick + 1`, aligned to the
spacing and inside the valid range. -/
def bestUpTick : TickMap → ℤ → ℤ → Option ℤ
  | [], _, _ => none
  | kv :: rest, tick, spacing =>
    let r := bestUpTick rest tick spacing
    if tick + 1 ≤ kv.1 ∧ kv.1 % spacing = 0 ∧
        MIN_TICK ≤ kv.1 ∧ kv.1 ≤ MAX_TICK then
      match r with
      | none => some kv.1
      | some m => some (min kv.1 m)
    else r

/-- Modelled from the spec: `getNextInitializedTick` — the next
addressable initialised tick strictly below (`zeroForOne`) or above
the given tick, or the clamped boundary with `initialized = false`. -/
def GetNextInitializedTick (tm : TickMap) (tick spacing : ℤ)
    (zeroForOne : Bool) : ℤ × Bool :=
  if zeroForOne then
    match bestDownTick tm tick spacing with
    | some m => (m, true)
    | none => (MIN_TICK, false)
  else
    match bestUpTick tm tick spacing with
    | some m => (m, true)
    | none => (MAX_TICK, false)

/-- Modelled from the spec: fetch a tick record, materialising a zero
record for an absent index (ticks materialise on first reference). -/
def GetTickAndInitIfAbsent (tm : TickMap) (i : ℤ) : Tick × TickMap :=
  match alookup tm i with
  | some t => (t, tm)
  | none => (NewTick, aset tm i NewTick)

/-- Modelled from the spec: `getFeeGrowthInside` — piecewise over the
current tick relative to `[lower, upper)`; an absent boundary tick
contributes zero `feeGrowthOutside`. -/
def GetFeeGrowthInside (tm : TickMap) (lower upper tickCurrent : ℤ)
    (feeGrowthGlobal0X128 feeGrowthGlobal1X128 : ℚ) : ℚ × ℚ :=
  let lowerTick := (alookup tm lower).getD NewTick
  let upperTick := (alookup tm upper).getD NewTick
  let below0 :=
    if lower ≤ tickCurrent then lowerTick.FeeGrowthOutside0X128
    else feeGrowthGlobal0X128 - lowerTick.FeeGrowthOutside0X128
  let below1 :=
    if lower ≤ tickCurrent then lowerTick.FeeGrowthOutside1X128
    else feeGrowthGlobal1X128 - lowerTick.FeeGrowthOutside1X128
  let above0 :=
    if tickCurrent < upper then upperTick.FeeGrowthOutside0X128
    else feeGrowthGlobal0X128 - upperTick.FeeGrowthOutside0X128
  let above1 :=
    if tickCurrent < upper then upperTick.FeeGrowthOutside1X128
    else feeGrowthGlobal1X128 - upperTick.FeeGrowthOutside1X128
  (feeGrowthGlobal0X128 - below0 - above0,
    feeGrowthGlobal1X128 - below1 - above1)

/-- Modelled from the spec: the core per-(owner,range) position record
(section 4.3); the swap path never touches it, it is carried only as
part of the pool state. -/
structure CorePosition where
  Liquidity : ℚ
  FeeGrowthInside0LastX128 : ℚ
  FeeGrowthInside1LastX128 : ℚ
  TokensOwed0 : ℚ
  TokensOwed1 : ℚ

/-- `CorePool` of the source (persistence metadata fields of the gorm
model are omitted; they play no part in the pool semantics). -/
structure CorePool where
  PoolAddress : String
  Fee : ℤ
  TickSpacing : ℤ
  MaxLiquidityPerTick : ℚ
  SqrtPriceX96 : ℚ
  Liquidity : ℚ
  TickCurrent : ℤ
  FeeGrowthGlobal0X128 : ℚ
  FeeGrowthGlobal1X128 : ℚ
  TickManager : TickMap
  PositionManager : List (String × CorePosition)

/-! ## Swap state machine

The loop body is identical in the two source variants of
`HandleSwap`; only the loop guards and the iteration-cap behaviour
differ.  The external uniswapv3-sdk helpers (`ComputeSwapStep`,
`GetSqrtRatioAtTick`) and the repository wrapper `GetTickAtSqrtRatio`
operate at the `big.Int` boundary (`Decimal.BigInt()` truncation on
the way in, `NewFromBigInt` on the way out); they are third-party
arithmetic, abstracted as an oracle the theorems quantify over. -/

/-- The external fixed-point helpers called from the swap loop. -/
structure SwapMathOracle where
  computeSwapStep : ℤ → ℤ → ℤ → ℤ → ℤ → Except String (ℤ × ℤ × ℤ × ℤ)
  getSqrtRatioAtTick : ℤ → Except String ℤ
  getTickAtSqrtRatio : ℚ → Except String ℤ

/-- `swapState` of the source. -/
structure SwapState where
  amountSpecifiedRemaining : ℚ
  amountCalculated : ℚ
  sqrtPriceX96 : ℚ
  tick : ℤ
  liquidity : ℚ
  feeGrowthGlobalX128 : ℚ

/-- Per-swap constants read by the loop body: direction, mode, price
limit, and the pool fields the body consults. -/
structure SwapCtx where
  zeroForOne : Bool
  exactInput : Bool
  isStatic : Bool
  sqrtPriceLimitX96 : ℚ
  tickSpacing : ℤ
  fee : ℤ
  feeGrowthGlobal0X128 : ℚ
  feeGrowthGlobal1X128 : ℚ

/-- One iteration of the swap loop (shared by both source variants):
find the next initialised tick, run `computeSwapStep`, update the
remaining/calculated amounts and fee growth, and cross the tick
boundary if it was reached. -/
def swapStepBody (o : SwapMathOracle) (c : SwapCtx) (tm : TickMap)
    (s : SwapState) : Except String (TickMap × SwapState) :=
  let sqrtPriceStartX96 := s.sqrtPriceX96
  let next := GetNextInitializedTick tm s.tick c.tickSpacing c.zeroForOne
  let tickNext :=
    if next.1 < MIN_TICK then MIN_TICK
    else if MAX_TICK < next.1 then MAX_TICK
    else next.1
  let initialized := next.2
  match o.getSqrtRatioAtTick tickNext with
  | Except.error e => Except.error e
  | Except.ok sqrtPriceNextBi =>
    let sqrtPriceNextX96 : ℚ := (sqrtPriceNextBi : ℚ)
    let sqrtRatioTargetX96 :=
      if c.zeroForOne then
        if sqrtPriceNextX96 < c.sqrtPriceLimitX96 then c.sqrtPriceLimitX96
        else sqrtPriceNextX96
      else
        if c.sqrtPriceLimitX96 < sqrtPriceNextX96 then c.sqrtPriceLimitX96
        else sqrtPriceNextX96
    match o.computeSwapStep (decTrunc s.sqrtPriceX96)
        (decTrunc sqrtRatioTargetX96) (decTrunc s.liquidity)
        (decTrunc s.amountSpecifiedRemaining) c.fee with
    | Except.error e => Except.error e
    | Except.ok (newSqrtPriceBi, amountInBi, amountOutBi, feeAmountBi) =>
      let newSqrtPriceX96 : ℚ := (newSqrtPriceBi : ℚ)
      let amountIn : ℚ := (amountInBi : ℚ)
      let amountOut : ℚ := (amountOutBi : ℚ)
      let feeAmount : ℚ := (feeAmountBi : ℚ)
      let s1 :=
        if c.exactInput then
          { s with
              sqrtPriceX96 := newSqrtPriceX96
              amountSpecifiedRemaining :=
                s.amountSpecifiedRemaining - (amountIn + feeAmount)
              amountCalculated := s.amountCalculated - amountOut }
        else
          { s with
              sqrtPriceX96 := newSqrtPriceX96
              amountSpecifiedRemaining :=
                s.amountSpecifiedRemaining + amountOut
              amountCalculated := s.amountCalculated + (amountIn + feeAmount) }
      let s2 :=
        if (0 : ℚ) < s1.liquidity then
          { s1 with feeGrowthGlobalX128 := s1.feeGrowthGlobalX128 +
              decRoundDown0 (decDiv (feeAmount * Q128) s1.liquidity) }
        else s1
      if s2.sqrtPriceX96 = sqrtPriceNextX96 then
        if initialized then
          let fetched := GetTickAndInitIfAbsent tm tickNext
          let crossed :=
            if c.isStatic then (fetched.1.LiquidityNet, fetched.2)
            else
              let pr :=
                if c.zeroForOne then
                  fetched.1.Cross s2.feeGrowthGlobalX128 c.feeGrowthGlobal1X128
                else
                  fetched.1.Cross c.feeGrowthGlobal0X128 s2.feeGrowthGlobalX128
              (pr.2, aset fetched.2 tickNext pr.1)
          let liquidityNet := if c.zeroForOne then -crossed.1 else crossed.1
          match AddDelta s2.liquidity liquidityNet with
          | Except.error e => Except.error e
          | Except.ok newLiquidity =>
            Except.ok (crossed.2,
              { s2 with
                  liquidity := newLiquidity
                  tick := if c.zeroForOne then tickNext - 1 else tickNext })
        else
          Except.ok (tm,
            { s2 with tick := if c.zeroForOne then tickNext - 1 else tickNext })
      else if s2.sqrtPriceX96 ≠ sqrtPriceStartX96 then
        match o.getTickAtSqrtRatio s2.sqrtPriceX96 with
        | Except.error e => Except.error e
        | Except.ok t => Except.ok (tm, { s2 with tick := t })
      else
        Except.ok (tm, s2)

/-- The epsilon threshold `decimal.NewFromFloat(0.00001)` of the first
source variant (`NewFromFloat` yields the shortest round-tripping
decimal, here exactly `1/100000`). -/
def epsilonDecimal : ℚ := 1 / 100000

/-- The exit test of the first variant's swap loop: the remaining
amount is within epsilon of zero, or the relative gap between the
price and the limit is within epsilon. -/
def v1ShouldExit (sqrtPriceLimitX96 : ℚ) (s : SwapState) : Bool :=
  (if |s.amountSpecifiedRemaining| ≤ epsilonDecimal then true else false) ||
    (if decDiv (|s.sqrtPriceX96 - sqrtPriceLimitX96|)
        (max s.sqrtPriceX96 sqrtPriceLimitX96) ≤ epsilonDecimal
     then true else false)

/-- Swap loop of the first source variant: exit on the epsilon guard,
or break *without an error* once the iteration counter passes 1024
(the fuel argument counts the body executions still allowed). -/
def swapLoopV1 (o : SwapMathOracle) (c : SwapCtx) :
    ℕ → TickMap → SwapState → Except String (TickMap × SwapState)
  | 0, tm, s => Except.ok (tm, s)
  | fuel + 1, tm, s =>
    if v1ShouldExit c.sqrtPriceLimitX96 s then Except.ok (tm, s)
    else
      match swapStepBody o c tm s with
      | Except.error e => Except.error e
      | Except.ok (tm1, s1) => swapLoopV1 o c fuel tm1 s1

/-- Swap loop of the second source variant: exit on exact equality of
the remaining amount with zero or of the price with the limit, and
fail with an error once the iteration counter passes 1000. -/
def swapLoopV2 (o : SwapMathOracle) (c : SwapCtx) :
    ℕ → TickMap → SwapState → Except String (TickMap × SwapState)
  | 0, _tm, s =>
    if s.amountSpecifiedRemaining = 0 ∨ s.sqrtPriceX96 = c.sqrtPriceLimitX96
    then Except.ok (_tm, s)
    else Except.error "excessive loop iterations in swap calculation (>1000)"
  | fuel + 1, tm, s =>
    if s.amountSpecifiedRemaining = 0 ∨ s.sqrtPriceX96 = c.sqrtPriceLimitX96
    then Except.ok (tm, s)
    else
      match swapStepBody o c tm s with
      | Except.error e => Except.error e
      | Except.ok (tm1, s1) => swapLoopV2 o c fuel tm1 s1

/-- The price limit default and validation shared by both variants
(the second variant formats the offending values into its messages;
the embedded messages keep only the fixed text). -/
def swapValidation (zeroForOne : Bool) (sqrtPriceLimitX96 poolPrice : ℚ)
    (minMsg currentLoMsg maxMsg currentHiMsg : String) : Option String :=
  if zeroForOne then
    if ¬ (MinSqrtRatio < sqrtPriceLimitX96) then some minMsg
    else if ¬ (sqrtPriceLimitX96 < poolPrice) then some currentLoMsg
    else none
  else
    if ¬ (sqrtPriceLimitX96 < MaxSqrtRatio) then some maxMsg
    else if ¬ (poolPrice < sqrtPriceLimitX96) then some currentHiMsg
    else none

/-- Shared assembly of `HandleSwap`: defaults, validation, initial
state, the given loop, the commit (skipped when `isStatic`, except
that the tick-map mutations made through the shared pointer persist),
and the final amounts. -/
def handleSwapWith
    (loop : SwapMathOracle → SwapCtx → ℕ → TickMap → SwapState →
      Except String (TickMap × SwapState))
    (fuel : ℕ) (minMsg currentLoMsg maxMsg currentHiMsg : String)
    (o : SwapMathOracle) (p : CorePool) (zeroForOne : Bool)
    (amountSpecified : ℚ) (optionalSqrtPriceLimitX96 : Option ℚ)
    (isStatic : Bool) : Except String (CorePool × ℚ × ℚ × ℚ) :=
  let sqrtPriceLimitX96 :=
    match optionalSqrtPriceLimitX96 with
    | none => if zeroForOne then MinSqrtRatio + 1 else MaxSqrtRatio - 1
    | some l => l
  match swapValidation zeroForOne sqrtPriceLimitX96 p.SqrtPriceX96
      minMsg currentLoMsg maxMsg currentHiMsg with
  | some e => Except.error e
  | none =>
    let exactInput := if 0 ≤ amountSpecified then true else false
    let c : SwapCtx :=
      { zeroForOne := zeroForOne
        exactInput := exactInput
        isStatic := isStatic
        sqrtPriceLimitX96 := sqrtPriceLimitX96
        tickSpacing := p.TickSpacing
        fee := p.Fee
        feeGrowthGlobal0X128 := p.FeeGrowthGlobal0X128
        feeGrowthGlobal1X128 := p.FeeGrowthGlobal1X128 }
    let s0 : SwapState :=
      { amountSpecifiedRemaining := amountSpecified
        amountCalculated := 0
        sqrtPriceX96 := p.SqrtPriceX96
        tick := p.TickCurrent
        liquidity := p.Liquidity
        feeGrowthGlobalX128 :=
          if zeroForOne then p.FeeGrowthGlobal0X128
          else p.FeeGrowthGlobal1X128 }
    match loop o c fuel p.TickManager s0 with
    | Except.error e => Except.error e
    | Except.ok (tm1, s1) =>
      let p1 :=
        if isStatic then { p with TickManager := tm1 }
        else
          { p with
              SqrtPriceX96 := s1.sqrtPriceX96
              TickCurrent := s1.tick
              Liquidity := s1.liquidity
              FeeGrowthGlobal0X128 :=
                if zeroForOne then s1.feeGrowthGlobalX128
                else p.FeeGrowthGlobal0X128
              FeeGrowthGlobal1X128 :=
                if zeroForOne then p.FeeGrowthGlobal1X128
                else s1.feeGrowthGlobalX128
              TickManager := tm1 }
      let amount0 :=
        if zeroForOne = exactInput then
          amountSpecified - s1.amountSpecifiedRemaining
        else s1.amountCalculated
      let amount1 :=
        if zeroForOne = exactInput then s1.amountCalculated
        else amountSpecified - s1.amountSpecifiedRemaining
      Except.ok (p1, amount0, amount1, s1.sqrtPriceX96)

/-- `HandleSwap` of the first source variant (epsilon guard, cap 1024
with a silent break). -/
def HandleSwapV1 (o : SwapMathOracle) (p : CorePool) (zeroForOne : Bool)
    (amountSpecified : ℚ) (optionalSqrtPriceLimitX96 : Option ℚ)
    (isStatic : Bool) : Except String (CorePool × ℚ × ℚ × ℚ) :=
  handleSwapWith swapLoopV1 1024 "RATIO_MIN" "RATIO_CURRENT" "RATIO_MAX"
    "RATIO_CURRENT" o p zeroForOne amountSpecified
    optionalSqrtPriceLimitX96 isStatic

/-- `HandleSwap` of the second source variant (exact guard, cap 1000
with a fatal error). -/
def HandleSwapV2 (o : SwapMathOracle) (p : CorePool) (zeroForOne : Bool)
    (amountSpecified : ℚ) (optionalSqrtPriceLimitX96 : Option ℚ)
    (isStatic : Bool) : Except String (CorePool × ℚ × ℚ × ℚ) :=
  handleSwapWith swapLoopV2 1000
    "price limit below minimum allowed ratio"
    "price limit must be less than current price for token0 -> token1 swap"
    "price limit above maximum allowed ratio"
    "price limit must be greater than current price for token1 -> token0 swap"
    o p zeroForOne amountSpecified optionalSqrtPriceLimitX96 isStatic

/-! ## Swap input resolver (both source variants) -/

/-- `SwapSolution`. -/
structure SwapSolution where
  AmountSpecified : ℚ
  SqrtPriceLimitX96 : Option ℚ

/-- `UniV3SwapEvent` (the fields the resolver reads; the raw-log
identity is flattened into the transaction hash and pool address). -/
structure UniV3SwapEvent where
  Amount0 : ℚ
  Amount1 : ℚ
  SqrtPriceX96 : ℚ
  Liquidity : ℚ
  TxHash : String
  Address : String

/-- `incTowardsInfinity`. -/
def incTowardsInfinity (d : ℚ) : ℚ :=
  if d = 0 then d
  else if 0 < d then d + 1
  else d - 1

/-- `tryToDryRun` of the second variant: run a static swap and demand
exact equality of both amounts and the final price. -/
def tryToDryRunV2 (o : SwapMathOracle) (pl : CorePool)
    (param : UniV3SwapEvent) (amountSpec : ℚ)
    (sqrtPriceLimitX96 : Option ℚ) : Bool :=
  match HandleSwapV2 o pl (if 0 < param.Amount0 then true else false)
      amountSpec sqrtPriceLimitX96 true with
  | Except.error _ => false
  | Except.ok (_, amount0, amount1, priceX96) =>
    if amount0 = param.Amount0 ∧ amount1 = param.Amount1 ∧
        priceX96 = param.SqrtPriceX96
    then true else false

/-- The no-solution message of the second variant's resolver. -/
def v2NoSolutionMsg (param : UniV3SwapEvent) : String :=
  "failed to find swap solution for tx: " ++ param.TxHash ++ ", pool: " ++
    param.Address ++ ", amount0: " ++ toString param.Amount0 ++
    ", amount1: " ++ toString param.Amount1 ++ ", sqrtPrice: " ++
    toString param.SqrtPriceX96

/-- Candidate loop of the second variant's resolver: accept the first
exactly-reproducing candidate, else fail. -/
def resolveLoopV2 (o : SwapMathOracle) (pl : CorePool)
    (param : UniV3SwapEvent) :
    List SwapSolution → Except String (ℚ × Option ℚ)
  | [] => Except.error (v2NoSolutionMsg param)
  | sol :: rest =>
    if tryToDryRunV2 o pl param sol.AmountSpecified sol.SqrtPriceLimitX96 then
      Except.ok (sol.AmountSpecified, sol.SqrtPriceLimitX96)
    else resolveLoopV2 o pl param rest

/-- `ResolveInputFromSwapResultEvent` of the second source variant. -/
def ResolveInputFromSwapResultEventV2 (o : SwapMathOracle) (pl : CorePool)
    (param : UniV3SwapEvent) : Except String (ℚ × Option ℚ) :=
  let solution3 : SwapSolution :=
    { AmountSpecified := param.Amount0, SqrtPriceLimitX96 := none }
  let solution4 : SwapSolution :=
    { AmountSpecified := param.Amount1, SqrtPriceLimitX96 := none }
  let solution1 : SwapSolution :=
    { AmountSpecified :=
        if param.Liquidity = 0 then incTowardsInfinity param.Amount0
        else param.Amount0
      SqrtPriceLimitX96 := some param.SqrtPriceX96 }
  let solution2 : SwapSolution :=
    { AmountSpecified :=
        if param.Liquidity = 0 then incTowardsInfinity param.Amount1
        else param.Amount1
      SqrtPriceLimitX96 := some param.SqrtPriceX96 }
  let solutionList :=
    [solution3, solution4] ++
      (if param.SqrtPriceX96 ≠ pl.SqrtPriceX96 then
        (if param.Liquidity = -1 then
          [{ AmountSpecified := param.Amount0,
             SqrtPriceLimitX96 := some param.SqrtPriceX96 },
           { AmountSpecified := param.Amount1,
             SqrtPriceLimitX96 := some param.SqrtPriceX96 }]
        else []) ++ [solution1, solution2]
      else [])
  resolveLoopV2 o pl param solutionList

/-- The per-candidate tolerance acceptance of the first variant's
resolver: both amounts and the price within 0.1 percent. -/
def v1WithinTolerance (param : UniV3SwapEvent) (a0 a1 px : ℚ) : Bool :=
  if decDiv (|a0 - param.Amount0|) (max (|param.Amount0|) 1) ≤ 1/1000 ∧
      decDiv (|a1 - param.Amount1|) (max (|param.Amount1|) 1) ≤ 1/1000 ∧
      decDiv (|px - param.SqrtPriceX96|) param.SqrtPriceX96 ≤ 1/1000
  then true else false

/-- The normalised total error of the first variant's resolver. -/
def v1TotalError (param : UniV3SwapEvent) (a0 a1 px : ℚ) : ℚ :=
  let priceError0 := |px - param.SqrtPriceX96|
  let amount0Error0 := |a0 - param.Amount0|
  let amount1Error0 := |a1 - param.Amount1|
  let priceError :=
    if param.SqrtPriceX96 ≠ 0 then decDiv priceError0 param.SqrtPriceX96
    else priceError0
  let amount0Error :=
    if param.Amount0 ≠ 0 then decDiv amount0Error0 (|param.Amount0|)
    else if a0 ≠ 0 then 1 else amount0Error0
  let amount1Error :=
    if param.Amount1 ≠ 0 then decDiv amount1Error0 (|param.Amount1|)
    else if a1 ≠ 0 then 1 else amount1Error0
  priceError + amount0Error + amount1Error

/-- The no-solution message of the first variant's resolver. -/
def v1NoSolutionMsg (pl : CorePool) (param : UniV3SwapEvent) : String :=
  "failed find swap solution for tx: " ++ param.TxHash ++ ", pool: " ++
    param.Address ++ ", amounts: " ++ toString param.Amount0 ++ "/" ++
    toString param.Amount1 ++ ", price: " ++ toString pl.SqrtPriceX96 ++
    " -> " ++ toString param.SqrtPriceX96

/-- Candidate loop of the first variant's resolver: accept the first
candidate within the 0.1 percent tolerance; otherwise remember the
candidate with the smallest total error and, after the list is
exhausted, return it when its error is below 0.003. -/
def resolveLoopV1 (o : SwapMathOracle) (pl : CorePool)
    (param : UniV3SwapEvent) :
    List SwapSolution → Option (SwapSolution × ℚ) →
      Except String (ℚ × Option ℚ)
  | [], best =>
    match best with
    | some (bsol, berr) =>
      if berr < 3/1000 then
        Except.ok (bsol.AmountSpecified, bsol.SqrtPriceLimitX96)
      else Except.error (v1NoSolutionMsg pl param)
    | none => Except.error (v1NoSolutionMsg pl param)
  | sol :: rest, best =>
    match HandleSwapV1 o pl (if 0 < param.Amount0 then true else false)
        sol.AmountSpecified sol.SqrtPriceLimitX96 true with
    | Except.error _ => resolveLoopV1 o pl param rest best
    | Except.ok (_, amount0, amount1, priceX96) =>
      if v1WithinTolerance param amount0 amount1 priceX96 then
        Except.ok (sol.AmountSpecified, sol.SqrtPriceLimitX96)
      else
        let totalError := v1TotalError param amount0 amount1 priceX96
        let best1 :=
          match best with
          | none => some (sol, totalError)
          | some (bsol, berr) =>
            if totalError < berr then some (sol, totalError)
            else some (bsol, berr)
        resolveLoopV1 o pl param rest best1

/-- `ResolveInputFromSwapResultEvent` of the first source variant,
with its four candidate groups. -/
def ResolveInputFromSwapResultEventV1 (o : SwapMathOracle) (pl : CorePool)
    (param : UniV3SwapEvent) : Except String (ℚ × Option ℚ) :=
  let adjustmentFactor : ℚ := 1/1000
  let incrementedAmount0 := incTowardsInfinity param.Amount0
  let incrementedAmount1 := incTowardsInfinity param.Amount1
  let solutionList : List SwapSolution :=
    [{ AmountSpecified := param.Amount0,
       SqrtPriceLimitX96 := some param.SqrtPriceX96 },
     { AmountSpecified := param.Amount1,
       SqrtPriceLimitX96 := some param.SqrtPriceX96 },
     { AmountSpecified := param.Amount0, SqrtPriceLimitX96 := none },
     { AmountSpecified := param.Amount1, SqrtPriceLimitX96 := none },
     { AmountSpecified := incrementedAmount0,
       SqrtPriceLimitX96 := some param.SqrtPriceX96 },
     { AmountSpecified := incrementedAmount1,
       SqrtPriceLimitX96 := some param.SqrtPriceX96 },
     { AmountSpecified := incrementedAmount0, SqrtPriceLimitX96 := none },
     { AmountSpecified := incrementedAmount1, SqrtPriceLimitX96 := none },
     { AmountSpecified := param.Amount0 * (1 + adjustmentFactor),
       SqrtPriceLimitX96 := some param.SqrtPriceX96 },
     { AmountSpecified := param.Amount1 * (1 + adjustmentFactor),
       SqrtPriceLimitX96 := some param.SqrtPriceX96 },
     { AmountSpecified := param.Amount0 * (1 - adjustmentFactor),
       SqrtPriceLimitX96 := some param.SqrtPriceX96 },
     { AmountSpecified := param.Amount1 * (1 - adjustmentFactor),
       SqrtPriceLimitX96 := some param.SqrtPriceX96 }] ++
    (if param.Liquidity = 0 then
      [{ AmountSpecified := param.Amount0 * (101/100),
         SqrtPriceLimitX96 := some param.SqrtPriceX96 },
       { AmountSpecified := param.Amount1 * (101/100),
         SqrtPriceLimitX96 := some param.SqrtPriceX96 },
       { AmountSpecified := param.Amount0 * (99/100),
         SqrtPriceLimitX96 := some param.SqrtPriceX96 },
       { AmountSpecified := param.Amount1 * (99/100),
         SqrtPriceLimitX96 := some param.SqrtPriceX96 }]
    else [])
  resolveLoopV1 o pl param solutionList none

/-! ## The NFT event-processing path for DecreaseLiquidity -/

/-- `NFTDecreaseLiquidityEvent` (decoded fields; the ABI parser reads
the liquidity and amounts from unsigned words, so they are
non-negative for every real log). -/
structure NFTDecreaseLiquidityEvent where
  TokenID : ℕ
  Liquidity : ℚ
  Amount0 : ℚ
  Amount1 : ℚ

/-- The state of `NFTPositionSimulator` the decrease path touches: the
token-position ledger and the pool registry. -/
structure SimState where
  tokenPositionManager : TokenPositionManager
  pools : List (String × CorePool)

/-- `processDecreaseLiquidityEvent`: look up the position and its
pool, resnapshot the fee growth inside, then hand the *negated* event
liquidity to `HandleDecreaseLiquidity` (which negates it again before
calling `TokenPosition.DecreaseLiquidity`). -/
def processDecreaseLiquidityEvent (st : SimState)
    (event : NFTDecreaseLiquidityEvent) : SimState × Option String :=
  match st.tokenPositionManager.GetPosition event.TokenID with
  | none => (st, some "position not found for token ID")
  | some position =>
    match alookup st.pools position.Pool with
    | none => (st, some "failed to get pool")
    | some pool =>
      let fgi := GetFeeGrowthInside pool.TickManager position.TickLower
        position.TickUpper pool.TickCurrent pool.FeeGrowthGlobal0X128
        pool.FeeGrowthGlobal1X128
      let res := st.tokenPositionManager.HandleDecreaseLiquidity
        event.TokenID (-event.Liquidity) fgi.1 fgi.2 event.Amount0
        event.Amount1
      ({ st with tokenPositionManager := res.1 },
        res.2.map (fun m => "failed to handle decrease liquidity: " ++ m))

/-! ## Concrete instances used by the theorems -/

/-- An oracle none of whose members is ever consulted. -/
@[reducible]
def trivialOracle : SwapMathOracle :=
  { computeSwapStep := fun _ _ _ _ _ => Except.error "unused"
    getSqrtRatioAtTick := fun _ => Except.error "unused"
    getTickAtSqrtRatio := fun _ => Except.error "unused" }

/-- A swap context with the price limit well below the price. -/
@[reducible]
def ctxC2 : SwapCtx :=
  { zeroForOne := true, exactInput := true, isStatic := true
    sqrtPriceLimitX96 := 100000000000000000000000000000, tickSpacing := 60, fee := 3000
    feeGrowthGlobal0X128 := 0, feeGrowthGlobal1X128 := 0 }

/-- A loop state with a tiny—but non-zero—remaining amount and the
price nowhere near the limit. -/
@[reducible]
def stateC2 : SwapState :=
  { amountSpecifiedRemaining := 1 / 200000, amountCalculated := 0
    sqrtPriceX96 := 1000000000000000000000000000000, tick := 0, liquidity := 0
    feeGrowthGlobalX128 := 0 }

/-- An oracle whose swap step consumes nothing and leaves the price
unchanged, so the loop never makes progress. -/
@[reducible]
def stallOracle : SwapMathOracle :=
  { computeSwapStep := fun _ _ _ _ _ => Except.ok (1000000000000000000000000000000, 0, 0, 0)
    getSqrtRatioAtTick := fun _ => Except.ok 4295128739
    getTickAtSqrtRatio := fun _ => Except.ok 0 }

/-- An initialised pool with no liquidity and an empty tick map. -/
@[reducible]
def poolC3 : CorePool :=
  { PoolAddress := "pool3", Fee := 3000, TickSpacing := 60
    MaxLiquidityPerTick := MaxUint128, SqrtPriceX96 := 1000000000000000000000000000000
    Liquidity := 0, TickCurrent := 0, FeeGrowthGlobal0X128 := 0
    FeeGrowthGlobal1X128 := 0, TickManager := [], PositionManager := [] }

/-- An oracle whose single step moves the price exactly to `10^29`
while charging `10001` in and paying `500` out. -/
@[reducible]
def oracleC4 : SwapMathOracle :=
  { computeSwapStep := fun _ _ _ _ _ => Except.ok (100000000000000000000000000000, 10001, 500, 0)
    getSqrtRatioAtTick := fun _ => Except.ok 4295128739
    getTickAtSqrtRatio := fun _ => Except.ok 0 }

/-- The pool the resolver counterexample runs against. -/
@[reducible]
def poolC4 : CorePool :=
  { PoolAddress := "pool4", Fee := 3000, TickSpacing := 60
    MaxLiquidityPerTick := MaxUint128, SqrtPriceX96 := 1000000000000000000000000000000
    Liquidity := 0, TickCurrent := 0, FeeGrowthGlobal0X128 := 0
    FeeGrowthGlobal1X128 := 0, TickManager := [], PositionManager := [] }

/-- An observed swap event: `10000` of token0 in, `500` of token1
out, final price `10^29`. -/
@[reducible]
def eventC4 : UniV3SwapEvent :=
  { Amount0 := 10000, Amount1 := -500, SqrtPriceX96 := 100000000000000000000000000000
    Liquidity := 7, TxHash := "0xtx", Address := "0xpool" }

/-- The pool used to witness the static-swap frame theorem. -/
@[reducible]
def poolC6 : CorePool :=
  { PoolAddress := "pool6", Fee := 3000, TickSpacing := 60
    MaxLiquidityPerTick := MaxUint128, SqrtPriceX96 := 1000000000000000000000000000000
    Liquidity := 0, TickCurrent := 0, FeeGrowthGlobal0X128 := 0
    FeeGrowthGlobal1X128 := 0, TickManager := [], PositionManager := [] }

/-- A live position with liquidity `10` and nothing owed. -/
@[reducible]
def posC1 : TokenPosition :=
  { TokenID := 1, Owner := "a", Pool := "p", TickLower := -60
    TickUpper := 60, Liquidity := 10, FeeGrowthInside0LastX128 := 0
    FeeGrowthInside1LastX128 := 0, TokensOwed0 := 0, TokensOwed1 := 0 }

/-- The pool backing `posC1`. -/
@[reducible]
def poolC1 : CorePool :=
  { PoolAddress := "p", Fee := 3000, TickSpacing := 60
    MaxLiquidityPerTick := MaxUint128, SqrtPriceX96 := 1000000000000000000000000000000
    Liquidity := 10, TickCurrent := 0, FeeGrowthGlobal0X128 := 0
    FeeGrowthGlobal1X128 := 0, TickManager := [], PositionManager := [] }

/-- A simulator state holding `posC1` and its pool. -/
@[reducible]
def stC1 : SimState :=
  { tokenPositionManager :=
      { Positions := [(1, posC1)], OwnerTokens := [("a", [1])]
        PoolTokens := [("p", [1])] }
    pools := [("p", poolC1)] }

/-- A DecreaseLiquidity event removing half of `posC1`'s liquidity. -/
@[reducible]
def evC1 : NFTDecreaseLiquidityEvent :=
  { TokenID := 1, Liquidity := 5, Amount0 := 3, Amount1 := 4 }

/-- A position whose stored token0 snapshot exceeds the fee growth a
later event will supply. -/
@[reducible]
def posC7 : TokenPosition :=
  { TokenID := 7, Owner := "a", Pool := "p", TickLower := -60
    TickUpper := 60, Liquidity := 1, FeeGrowthInside0LastX128 := Q128
    FeeGrowthInside1LastX128 := 0, TokensOwed0 := 0, TokensOwed1 := 0 }

/-- A ledger holding `posC7`. -/
@[reducible]
def tpmC7 : TokenPositionManager :=
  { Positions := [(7, posC7)], OwnerTokens := [("a", [7])]
    PoolTokens := [("p", [7])] }

/-- A position with well-ordered snapshots, for the witness of the
amended monotonicity theorem. -/
@[reducible]
def posC7w : TokenPosition :=
  { TokenID := 71, Owner := "w", Pool := "p", TickLower := -60
    TickUpper := 60, Liquidity := 2, FeeGrowthInside0LastX128 := 1
    FeeGrowthInside1LastX128 := 1, TokensOwed0 := 4, TokensOwed1 := 0 }

/-- A position owing `(5, 2)`. -/
@[reducible]
def posC8 : TokenPosition :=
  { TokenID := 8, Owner := "a", Pool := "p", TickLower := -60
    TickUpper := 60, Liquidity := 3, FeeGrowthInside0LastX128 := 0
    FeeGrowthInside1LastX128 := 0, TokensOwed0 := 5, TokensOwed1 := 2 }

/-- A ledger holding `posC8`. -/
@[reducible]
def tpmC8 : TokenPositionManager :=
  { Positions := [(8, posC8)], OwnerTokens := [("a", [8])]
    PoolTokens := [("p", [8])] }

/-- A position owned by `"a"` in pool `"p"`. -/
@[reducible]
def posC10 : TokenPosition :=
  { TokenID := 10, Owner := "a", Pool := "p", TickLower := -60
    TickUpper := 60, Liquidity := 3, FeeGrowthInside0LastX128 := 0
    FeeGrowthInside1LastX128 := 0, TokensOwed0 := 0, TokensOwed1 := 0 }

/-- A ledger holding `posC10`. -/
@[reducible]
def tpmC10 : TokenPositionManager :=
  { Positions := [(10, posC10)], OwnerTokens := [("a", [10])]
    PoolTokens := [("p", [10])] }

/-- The context `HandleSwapV1`/`V2` build for a `zeroForOne`
exact-input swap on `poolC3` with limit `10^29`. -/
@[reducible]
def ctxC3 : SwapCtx :=
  { zeroForOne := true, exactInput := true, isStatic := false
    sqrtPriceLimitX96 := 100000000000000000000000000000, tickSpacing := 60, fee := 3000
    feeGrowthGlobal0X128 := 0, feeGrowthGlobal1X128 := 0 }

/-- The initial loop state of that swap for `amountSpecified = 1`. -/
@[reducible]
def sC3 : SwapState :=
  { amountSpecifiedRemaining := 1, amountCalculated := 0
    sqrtPriceX96 := 1000000000000000000000000000000, tick := 0, liquidity := 0
    feeGrowthGlobalX128 := 0 }

/-- The context `handleSwapWith` assembles for that swap, spelled with
the pool projections it actually reads. -/
def ctxOfC3 : SwapCtx :=
  { zeroForOne := true
    exactInput := if (0:ℚ) ≤ 1 then true else false
    isStatic := false
    sqrtPriceLimitX96 := 100000000000000000000000000000
    tickSpacing := poolC3.TickSpacing
    fee := poolC3.Fee
    feeGrowthGlobal0X128 := poolC3.FeeGrowthGlobal0X128
    feeGrowthGlobal1X128 := poolC3.FeeGrowthGlobal1X128 }

/-- The initial state `handleSwapWith` assembles for that swap, spelled
with the pool projections it actually reads. -/
def s0OfC3 : SwapState :=
  { amountSpecifiedRemaining := 1
    amountCalculated := 0
    sqrtPriceX96 := poolC3.SqrtPriceX96
    tick := poolC3.TickCurrent
    liquidity := poolC3.Liquidity
    feeGrowthGlobalX128 :=
      if true then poolC3.FeeGrowthGlobal0X128
      else poolC3.FeeGrowthGlobal1X128 }

/-- The context of the static dry-run the resolver counterexample
performs (`amountSpecified = 10000`, limit `10^29`). -/
@[reducible]
def ctxC4 : SwapCtx :=
  { zeroForOne := true, exactInput := true, isStatic := true
    sqrtPriceLimitX96 := 100000000000000000000000000000, tickSpacing := 60, fee := 3000
    feeGrowthGlobal0X128 := 0, feeGrowthGlobal1X128 := 0 }

/-- Its initial loop state. -/
@[reducible]
def sC4a : SwapState :=
  { amountSpecifiedRemaining := 10000, amountCalculated := 0
    sqrtPriceX96 := 1000000000000000000000000000000, tick := 0, liquidity := 0
    feeGrowthGlobalX128 := 0 }

/-- The state after the single effective step of that dry-run. -/
@[reducible]
def sC4b : SwapState :=
  { amountSpecifiedRemaining := -1, amountCalculated := -500
    sqrtPriceX96 := 100000000000000000000000000000, tick := 0, liquidity := 0
    feeGrowthGlobalX128 := 0 }

/-- The initial loop state of the zero-amount static swap used to
witness the frame theorem. -/
@[reducible]
def sC6 : SwapState :=
  { amountSpecifiedRemaining := 0, amountCalculated := 0
    sqrtPriceX96 := 1000000000000000000000000000000, tick := 0, liquidity := 0
    feeGrowthGlobalX128 := 0 }

/-- A position used to exhibit the rejection of zero-delta updates. -/
@[reducible]
def posC9 : TokenPosition :=
  { TokenID := 9, Owner := "a", Pool := "p", TickLower := -60
    TickUpper := 60, Liquidity := 5, FeeGrowthInside0LastX128 := 0
    FeeGrowthInside1LastX128 := 0, TokensOwed0 := 1, TokensOwed1 := 2 }

/-! ## Helper lemmas -/

/-- Ceiling through floor, so that `norm_num` (which evaluates floors
but not ceilings) can evaluate the truncations. -/
theorem ceilViaFloor (q : ℚ) : ⌈q⌉ = -⌊-q⌋ := by
  conv_lhs => rw [← neg_neg q]
  rw [Int.ceil_neg]

theorem swapLoopV1_zero (o : SwapMathOracle) (c : SwapCtx) (tm : TickMap)
    (s : SwapState) : swapLoopV1 o c 0 tm s = Except.ok (tm, s) := rfl

theorem swapLoopV1_succ (o : SwapMathOracle) (c : SwapCtx) (fuel : ℕ)
    (tm : TickMap) (s : SwapState) :
    swapLoopV1 o c (fuel + 1) tm s =
      if v1ShouldExit c.sqrtPriceLimitX96 s then Except.ok (tm, s)
      else
        match swapStepBody o c tm s with
        | Except.error e => Except.error e
        | Except.ok (tm1, s1) => swapLoopV1 o c fuel tm1 s1 := rfl

theorem swapLoopV2_zero (o : SwapMathOracle) (c : SwapCtx) (tm : TickMap)
    (s : SwapState) :
    swapLoopV2 o c 0 tm s =
      if s.amountSpecifiedRemaining = 0 ∨ s.sqrtPriceX96 = c.sqrtPriceLimitX96
      then Except.ok (tm, s)
      else Except.error "excessive loop iterations in swap calculation (>1000)" :=
  rfl

theorem swapLoopV2_succ (o : SwapMathOracle) (c : SwapCtx) (fuel : ℕ)
    (tm : TickMap) (s : SwapState) :
    swapLoopV2 o c (fuel + 1) tm s =
      if s.amountSpecifiedRemaining = 0 ∨ s.sqrtPriceX96 = c.sqrtPriceLimitX96
      then Except.ok (tm, s)
      else
        match swapStepBody o c tm s with
        | Except.error e => Except.error e
        | Except.ok (tm1, s1) => swapLoopV2 o c fuel tm1 s1 := rfl

theorem stepC3 : swapStepBody stallOracle ctxC3 [] sC3 = Except.ok ([], sC3) := by
  norm_num [swapStepBody, GetNextInitializedTick, bestDownTick, stallOracle,
    ctxC3, sC3, MIN_TICK, MAX_TICK]

theorem guardC3 : v1ShouldExit ctxC3.sqrtPriceLimitX96 sC3 = false := by
  norm_num [v1ShouldExit, ctxC3, sC3, epsilonDecimal, decDiv, roundHalfAway,
    ceilViaFloor, abs_of_nonneg, abs_of_pos]

theorem loopC3V1 : ∀ fuel, swapLoopV1 stallOracle ctxC3 fuel [] sC3 =
    Except.ok ([], sC3) := by
  intro fuel
  induction fuel with
  | zero => rfl
  | succ n ih =>
    rw [swapLoopV1_succ, guardC3, if_neg Bool.false_ne_true, stepC3]
    exact ih

theorem notExitC3 :
    ¬ (sC3.amountSpecifiedRemaining = 0 ∨
        sC3.sqrtPriceX96 = ctxC3.sqrtPriceLimitX96) := by
  norm_num [sC3, ctxC3]

theorem loopC3V2 : ∀ fuel, swapLoopV2 stallOracle ctxC3 fuel [] sC3 =
    Except.error "excessive loop iterations in swap calculation (>1000)" := by
  intro fuel
  induction fuel with
  | zero => rw [swapLoopV2_zero, if_neg notExitC3]
  | succ n ih =>
    rw [swapLoopV2_succ, if_neg notExitC3, stepC3]
    exact ih

theorem ctxOfC3_eq : ctxOfC3 = ctxC3 := by
  norm_num [ctxOfC3, poolC3, ctxC3]

theorem s0OfC3_eq : s0OfC3 = sC3 := by
  norm_num [s0OfC3, poolC3, sC3]

theorem handleSwapWith_ok
    (loop : SwapMathOracle → SwapCtx → ℕ → TickMap → SwapState →
      Except String (TickMap × SwapState))
    (fuel : ℕ) (m1 m2 m3 m4 : String)
    (o : SwapMathOracle) (p : CorePool) (zeroForOne : Bool)
    (amountSpecified lim : ℚ) (isStatic : Bool)
    (tm1 : TickMap) (s1 : SwapState)
    (hval : swapValidation zeroForOne lim p.SqrtPriceX96 m1 m2 m3 m4 = none)
    (hloop : loop o
      { zeroForOne := zeroForOne
        exactInput := if 0 ≤ amountSpecified then true else false
        isStatic := isStatic
        sqrtPriceLimitX96 := lim
        tickSpacing := p.TickSpacing
        fee := p.Fee
        feeGrowthGlobal0X128 := p.FeeGrowthGlobal0X128
        feeGrowthGlobal1X128 := p.FeeGrowthGlobal1X128 }
      fuel p.TickManager
      { amountSpecifiedRemaining := amountSpecified
        amountCalculated := 0
        sqrtPriceX96 := p.SqrtPriceX96
        tick := p.TickCurrent
        liquidity := p.Liquidity
        feeGrowthGlobalX128 :=
          if zeroForOne then p.FeeGrowthGlobal0X128
          else p.FeeGrowthGlobal1X128 } =
      Except.ok (tm1, s1)) :
    handleSwapWith loop fuel m1 m2 m3 m4 o p zeroForOne amountSpecified
        (some lim) isStatic =
      Except.ok
        ((if isStatic then { p with TickManager := tm1 }
          else { p with
              SqrtPriceX96 := s1.sqrtPriceX96
              TickCurrent := s1.tick
              Liquidity := s1.liquidity
              FeeGrowthGlobal0X128 :=
                if zeroForOne then s1.feeGrowthGlobalX128
                else p.FeeGrowthGlobal0X128
              FeeGrowthGlobal1X128 :=
                if zeroForOne then p.FeeGrowthGlobal1X128
                else s1.feeGrowthGlobalX128
              TickManager := tm1 }),
          (if zeroForOne = (if 0 ≤ amountSpecified then true else false)
           then amountSpecified - s1.amountSpecifiedRemaining
           else s1.amountCalculated),
          (if zeroForOne = (if 0 ≤ amountSpecified then true else false)
           then s1.amountCalculated
           else amountSpecified - s1.amountSpecifiedRemaining),
          s1.sqrtPriceX96) := by
  unfold handleSwapWith
  simp only []
  rw [hval]
  simp only []
  rw [hloop]

theorem handleSwapWith_error
    (loop : SwapMathOracle → SwapCtx → ℕ → TickMap → SwapState →
      Except String (TickMap × SwapState))
    (fuel : ℕ) (m1 m2 m3 m4 : String)
    (o : SwapMathOracle) (p : CorePool) (zeroForOne : Bool)
    (amountSpecified lim : ℚ) (isStatic : Bool) (e : String)
    (hval : swapValidation zeroForOne lim p.SqrtPriceX96 m1 m2 m3 m4 = none)
    (hloop : loop o
      { zeroForOne := zeroForOne
        exactInput := if 0 ≤ amountSpecified then true else false
        isStatic := isStatic
        sqrtPriceLimitX96 := lim
        tickSpacing := p.TickSpacing
        fee := p.Fee
        feeGrowthGlobal0X128 := p.FeeGrowthGlobal0X128
        feeGrowthGlobal1X128 := p.FeeGrowthGlobal1X128 }
      fuel p.TickManager
      { amountSpecifiedRemaining := amountSpecified
        amountCalculated := 0
        sqrtPriceX96 := p.SqrtPriceX96
        tick := p.TickCurrent
        liquidity := p.Liquidity
        feeGrowthGlobalX128 :=
          if zeroForOne then p.FeeGrowthGlobal0X128
          else p.FeeGrowthGlobal1X128 } =
      Except.error e) :
    handleSwapWith loop fuel m1 m2 m3 m4 o p zeroForOne amountSpecified
        (some lim) isStatic = Except.error e := by
  unfold handleSwapWith
  simp only []
  rw [hval]
  simp only []
  rw [hloop]

theorem alookup_cons_isSome {α β : Type} [DecidableEq α] (kv : α × β)
    (rest : List (α × β)) (k : α) (h : (alookup rest k).isSome = true) :
    (alookup (kv :: rest) k).isSome = true := by
  unfold alookup
  split
  · rfl
  · exact h

theorem bestDownTick_sound {tm : TickMap} {tick spacing m : ℤ}
    (h : bestDownTick tm tick spacing = some m) :
    (alookup tm m).isSome = true ∧ MIN_TICK ≤ m ∧ m ≤ MAX_TICK := by
  induction tm generalizing m with
  | nil => cases h
  | cons kv rest ih =>
    simp only [bestDownTick] at h
    split at h
    · rcases hr : bestDownTick rest tick spacing with _ | m' <;> rw [hr] at h
      · cases h
        refine ⟨?_, by omega, by omega⟩
        unfold alookup
        rw [if_pos rfl]
        rfl
      · cases h
        rcases max_choice kv.1 m' with hmax | hmax <;> rw [hmax]
        · refine ⟨?_, by omega, by omega⟩
          unfold alookup
          rw [if_pos rfl]
          rfl
        · obtain ⟨h1, h2, h3⟩ := ih hr
          exact ⟨alookup_cons_isSome kv rest m' h1, h2, h3⟩
    · obtain ⟨h1, h2, h3⟩ := ih h
      exact ⟨alookup_cons_isSome kv rest m h1, h2, h3⟩

theorem bestUpTick_sound {tm : TickMap} {tick spacing m : ℤ}
    (h : bestUpTick tm tick spacing = some m) :
    (alookup tm m).isSome = true ∧ MIN_TICK ≤ m ∧ m ≤ MAX_TICK := by
  induction tm generalizing m with
  | nil => cases h
  | cons kv rest ih =>
    simp only [bestUpTick] at h
    split at h
    · rcases hr : bestUpTick rest tick spacing with _ | m' <;> rw [hr] at h
      · cases h
        refine ⟨?_, by omega, by omega⟩
        unfold alookup
        rw [if_pos rfl]
        rfl
      · cases h
        rcases min_choice kv.1 m' with hmin | hmin <;> rw [hmin]
        · refine ⟨?_, by omega, by omega⟩
          unfold alookup
          rw [if_pos rfl]
          rfl
        · obtain ⟨h1, h2, h3⟩ := ih hr
          exact ⟨alookup_cons_isSome kv rest m' h1, h2, h3⟩
    · obtain ⟨h1, h2, h3⟩ := ih h
      exact ⟨alookup_cons_isSome kv rest m h1, h2, h3⟩

theorem GetNextInitializedTick_true {tm : TickMap} {t sp tn : ℤ} {z : Bool}
    (h : GetNextInitializedTick tm t sp z = (tn, true)) :
    (alookup tm tn).isSome = true ∧ MIN_TICK ≤ tn ∧ tn ≤ MAX_TICK := by
  unfold GetNextInitializedTick at h
  split at h
  · rcases hb : bestDownTick tm t sp with _ | m <;> rw [hb] at h
    · cases h
    · simp only [Prod.mk.injEq] at h
      obtain ⟨rfl, -⟩ := h
      exact bestDownTick_sound hb
  · rcases hb : bestUpTick tm t sp with _ | m <;> rw [hb] at h
    · cases h
    · simp only [Prod.mk.injEq] at h
      obtain ⟨rfl, -⟩ := h
      exact bestUpTick_sound hb

theorem GetTickAndInit_of_isSome {tm : TickMap} {i : ℤ}
    (h : (alookup tm i).isSome = true) :
    (GetTickAndInitIfAbsent tm i).2 = tm := by
  unfold GetTickAndInitIfAbsent
  rcases halo : alookup tm i with _ | t
  · rw [halo] at h
    cases h
  · rfl

theorem swapStepBody_static_tm {o : SwapMathOracle} {c : SwapCtx} {tm : TickMap}
    {s : SwapState} {r : TickMap × SwapState} (hstatic : c.isStatic = true)
    (h : swapStepBody o c tm s = Except.ok r) : r.1 = tm := by
  unfold swapStepBody at h
  rcases hnext : GetNextInitializedTick tm s.tick c.tickSpacing c.zeroForOne
    with ⟨tn, init⟩
  rw [hnext] at h
  simp only [] at h
  cases init with
  | false =>
    simp only [Bool.false_eq_true, if_false] at h
    repeat' split at h
    all_goals
      first
        | exact Except.noConfusion h
        | (cases h; rfl)
  | true =>
    obtain ⟨hsome, hlo, hhi⟩ := GetNextInitializedTick_true hnext
    rw [if_neg (by omega : ¬ (tn < MIN_TICK)),
      if_neg (by omega : ¬ (MAX_TICK < tn))] at h
    simp only [hstatic, eq_self_iff_true, if_true] at h
    repeat' split at h
    all_goals
      first
        | exact Except.noConfusion h
        | (cases h; rfl)
        | (cases h; exact GetTickAndInit_of_isSome hsome)

theorem swapLoopV1_static_tm {o : SwapMathOracle} {c : SwapCtx}
    (hstatic : c.isStatic = true) :
    ∀ (fuel : ℕ) (tm : TickMap) (s : SwapState) (r : TickMap × SwapState),
      swapLoopV1 o c fuel tm s = Except.ok r → r.1 = tm := by
  intro fuel
  induction fuel with
  | zero =>
    intro tm s r h
    rw [swapLoopV1_zero] at h
    cases h
    rfl
  | succ n ih =>
    intro tm s r h
    rw [swapLoopV1_succ] at h
    split at h
    · cases h
      rfl
    · rcases hb : swapStepBody o c tm s with e | ⟨tm1, s1⟩ <;> rw [hb] at h
      · exact Except.noConfusion h
      · simp only [] at h
        rw [ih tm1 s1 r h]
        exact swapStepBody_static_tm hstatic hb

theorem swapLoopV2_static_tm {o : SwapMathOracle} {c : SwapCtx}
    (hstatic : c.isStatic = true) :
    ∀ (fuel : ℕ) (tm : TickMap) (s : SwapState) (r : TickMap × SwapState),
      swapLoopV2 o c fuel tm s = Except.ok r → r.1 = tm := by
  intro fuel
  induction fuel with
  | zero =>
    intro tm s r h
    rw [swapLoopV2_zero] at h
    split at h
    · cases h
      rfl
    · exact Except.noConfusion h
  | succ n ih =>
    intro tm s r h
    rw [swapLoopV2_succ] at h
    split at h
    · cases h
      rfl
    · rcases hb : swapStepBody o c tm s with e | ⟨tm1, s1⟩ <;> rw [hb] at h
      · exact Except.noConfusion h
      · simp only [] at h
        rw [ih tm1 s1 r h]
        exact swapStepBody_static_tm hstatic hb
theorem resolveLoopV1_cons (o : SwapMathOracle) (pl : CorePool)
    (param : UniV3SwapEvent) (sol : SwapSolution) (rest : List SwapSolution)
    (best : Option (SwapSolution × ℚ)) :
    resolveLoopV1 o pl param (sol :: rest) best =
      match HandleSwapV1 o pl (if 0 < param.Amount0 then true else false)
          sol.AmountSpecified sol.SqrtPriceLimitX96 true with
      | Except.error _ => resolveLoopV1 o pl param rest best
      | Except.ok (_, amount0, amount1, priceX96) =>
        if v1WithinTolerance param amount0 amount1 priceX96 then
          Except.ok (sol.AmountSpecified, sol.SqrtPriceLimitX96)
        else
          let totalError := v1TotalError param amount0 amount1 priceX96
          let best1 :=
            match best with
            | none => some (sol, totalError)
            | some (bsol, berr) =>
              if totalError < berr then some (sol, totalError)
              else some (bsol, berr)
          resolveLoopV1 o pl param rest best1 := rfl

theorem stepC4a : swapStepBody oracleC4 ctxC4 [] sC4a = Except.ok ([], sC4b) := by
  norm_num [swapStepBody, GetNextInitializedTick, bestDownTick, oracleC4,
    ctxC4, sC4a, sC4b, MIN_TICK, MAX_TICK]

theorem guardC4a : v1ShouldExit ctxC4.sqrtPriceLimitX96 sC4a = false := by
  norm_num [v1ShouldExit, ctxC4, sC4a, epsilonDecimal, decDiv, roundHalfAway,
    ceilViaFloor, abs_of_nonneg, abs_of_pos]

theorem guardC4b : v1ShouldExit ctxC4.sqrtPriceLimitX96 sC4b = true := by
  norm_num [v1ShouldExit, ctxC4, sC4b, epsilonDecimal, decDiv, roundHalfAway,
    ceilViaFloor]

theorem loopC4V1 : swapLoopV1 oracleC4 ctxC4 1024 [] sC4a =
    Except.ok ([], sC4b) := by
  rw [show (1024:ℕ) = 1023 + 1 from rfl, swapLoopV1_succ, guardC4a,
    if_neg Bool.false_ne_true, stepC4a]
  show swapLoopV1 oracleC4 ctxC4 1023 [] sC4b = Except.ok ([], sC4b)
  rw [show (1023:ℕ) = 1022 + 1 from rfl, swapLoopV1_succ, guardC4b, if_pos rfl]

theorem hv1C4 : HandleSwapV1 oracleC4 poolC4 true 10000
    (some 100000000000000000000000000000) true =
    Except.ok (poolC4, 10001, -500, 100000000000000000000000000000) := by
  have hval : swapValidation true (100000000000000000000000000000 : ℚ)
      poolC4.SqrtPriceX96 "RATIO_MIN" "RATIO_CURRENT" "RATIO_MAX"
      "RATIO_CURRENT" = none := by
    norm_num [swapValidation, poolC4, MinSqrtRatio]
  unfold HandleSwapV1 handleSwapWith
  simp only []
  rw [hval]
  have h01 : ((0:ℚ) ≤ 10000) = True := by norm_num
  simp only [h01, if_true]
  rw [loopC4V1]
  norm_num [sC4b, poolC4]

theorem hwtC4 : v1WithinTolerance eventC4 10001 (-500)
    100000000000000000000000000000 = true := by
  norm_num [v1WithinTolerance, eventC4, decDiv, roundHalfAway, ceilViaFloor,
    abs_of_nonneg, abs_of_pos]

theorem c4resolverV1 :
    ResolveInputFromSwapResultEventV1 oracleC4 poolC4 eventC4 =
      Except.ok (10000, some 100000000000000000000000000000) := by
  unfold ResolveInputFromSwapResultEventV1
  simp only []
  norm_num [eventC4]
  rw [resolveLoopV1_cons]
  have h010k : ((0:ℚ) < 10000) = True := by norm_num
  simp only [h010k, if_true, eventC4]
  rw [hv1C4]
  simp only [hwtC4, if_true]

theorem alookup_aset_self {α β : Type} [DecidableEq α] (m : List (α × β))
    (k : α) (v : β) : alookup (aset m k v) k = some v := by
  induction m with
  | nil =>
    unfold aset alookup
    rw [if_pos rfl]
  | cons kv rest ih =>
    unfold aset
    by_cases hk : kv.1 = k
    · rw [if_pos hk]
      unfold alookup
      rw [if_pos rfl]
    · rw [if_neg hk]
      unfold alookup
      rw [if_neg hk]
      exact ih

theorem alookup_aset_ne {α β : Type} [DecidableEq α] (m : List (α × β))
    {k k' : α} (v : β) (h : k ≠ k') :
    alookup (aset m k v) k' = alookup m k' := by
  induction m with
  | nil =>
    unfold aset alookup
    rw [if_neg h]
    rfl
  | cons kv rest ih =>
    unfold aset
    by_cases hk : kv.1 = k
    · rw [if_pos hk]
      unfold alookup
      rw [if_neg h, if_neg (fun hc => h (hk.symm.trans hc))]
    · rw [if_neg hk]
      unfold alookup
      by_cases hk' : kv.1 = k'
      · rw [if_pos hk', if_pos hk']
      · rw [if_neg hk', if_neg hk']
        exact ih

theorem roundHalfAway_nonneg {q : ℚ} (h : 0 ≤ q) : 0 ≤ roundHalfAway q := by
  unfold roundHalfAway
  rw [if_pos h]
  exact Int.le_floor.2 (by push_cast; linarith)

theorem decDiv_nonneg {x y : ℚ} (hx : 0 ≤ x) (hy : 0 ≤ y) : 0 ≤ decDiv x y := by
  unfold decDiv
  have h1 : (0:ℚ) ≤ x / y * 10 ^ 16 := by positivity
  have h2 : (0:ℚ) ≤ (roundHalfAway (x / y * 10 ^ 16) : ℚ) := by
    exact_mod_cast roundHalfAway_nonneg h1
  positivity

theorem decRoundDown0_nonneg {q : ℚ} (h : 0 ≤ q) : 0 ≤ decRoundDown0 q := by
  unfold decRoundDown0 decTrunc
  rw [if_pos h]
  have : (0:ℤ) ≤ ⌊q⌋ := Int.le_floor.2 (by push_cast; linarith)
  exact_mod_cast this

theorem feeAccrual_nonneg {fgi last liquidity : ℚ} (h : last ≤ fgi)
    (hL : 0 ≤ liquidity) : 0 ≤ feeAccrual fgi last liquidity :=
  decRoundDown0_nonneg (decDiv_nonneg
    (mul_nonneg (by linarith) hL) (by norm_num [Q128]))

theorem increase_owed_mono (p : TokenPosition) (δ f0 f1 : ℚ)
    (hL : 0 ≤ p.Liquidity) (h0 : p.FeeGrowthInside0LastX128 ≤ f0)
    (h1 : p.FeeGrowthInside1LastX128 ≤ f1) :
    p.TokensOwed0 ≤ ((p.IncreaseLiquidity δ f0 f1).1).TokensOwed0 ∧
    p.TokensOwed1 ≤ ((p.IncreaseLiquidity δ f0 f1).1).TokensOwed1 := by
  have t0 := feeAccrual_nonneg h0 hL
  have t1 := feeAccrual_nonneg h1 hL
  unfold TokenPosition.IncreaseLiquidity
  split
  · exact ⟨le_refl _, le_refl _⟩
  · rcases hq : LiquidityAddDelta p.Liquidity δ with e | lnext <;> simp only []
    · exact ⟨le_refl _, le_refl _⟩
    · split
      · constructor <;> simp only [] <;> linarith
      · exact ⟨le_refl _, le_refl _⟩

theorem decrease_owed_mono (p : TokenPosition) (δ f0 f1 a0 a1 : ℚ)
    (hL : 0 ≤ p.Liquidity) (h0 : p.FeeGrowthInside0LastX128 ≤ f0)
    (h1 : p.FeeGrowthInside1LastX128 ≤ f1) (ha0 : 0 ≤ a0) (ha1 : 0 ≤ a1) :
    p.TokensOwed0 ≤ ((p.DecreaseLiquidity δ f0 f1 a0 a1).1).TokensOwed0 ∧
    p.TokensOwed1 ≤ ((p.DecreaseLiquidity δ f0 f1 a0 a1).1).TokensOwed1 := by
  have t0 := feeAccrual_nonneg h0 hL
  have t1 := feeAccrual_nonneg h1 hL
  unfold TokenPosition.DecreaseLiquidity
  split
  · exact ⟨le_refl _, le_refl _⟩
  · split
    · exact ⟨le_refl _, le_refl _⟩
    · rcases hq : LiquidityAddDelta p.Liquidity δ with e | lnext
      · exact ⟨le_refl _, le_refl _⟩
      · constructor <;> (try simp only []) <;> linarith

theorem transfer_owed_frame (tpm : TokenPositionManager) (tid : ℕ)
    (from_ to_ : String) (tid' : ℕ) :
    (alookup (tpm.HandleTransfer tid from_ to_).1.Positions tid').map
        (fun q => (q.TokensOwed0, q.TokensOwed1)) =
      (alookup tpm.Positions tid').map
        (fun q => (q.TokensOwed0, q.TokensOwed1)) := by
  unfold TokenPositionManager.HandleTransfer
  rcases hl : alookup tpm.Positions tid with _ | pos
  · rfl
  · simp only []
    split
    · by_cases he : tid = tid'
      · subst he
        rw [alookup_aset_self, hl]
        simp
      · rw [alookup_aset_ne _ _ he]
    · split
      · by_cases he : tid = tid'
        · subst he
          rw [alookup_aset_self, hl]
          simp
        · rw [alookup_aset_ne _ _ he]
      · by_cases he : tid = tid'
        · subst he
          rw [alookup_aset_self, hl]
          simp
        · rw [alookup_aset_ne _ _ he]

theorem collect_if_min (a b : ℚ) : (if b < a then b else a) = min a b := by
  split
  · rename_i hh
    exact (min_eq_right (le_of_lt hh)).symm
  · rename_i hh
    exact (min_eq_left (le_of_not_lt hh)).symm

/-- Claim C8: `collect` returns `out_k = min(req_k, tokensOwed_k)`, decrements
`tokensOwed_k` by exactly `out_k`, and a non-negative owed balance never
becomes negative. -/
theorem c8_collect_truncates_at_owed (tpm : TokenPositionManager) (tokenID : ℕ) (r0 r1 : ℚ)
    (p : TokenPosition) (h : alookup tpm.Positions tokenID = some p) :
    (tpm.HandleCollect tokenID r0 r1).2.1 = min r0 p.TokensOwed0 ∧
    (tpm.HandleCollect tokenID r0 r1).2.2.1 = min r1 p.TokensOwed1 ∧
    (tpm.HandleCollect tokenID r0 r1).2.2.2 = none ∧
    alookup (tpm.HandleCollect tokenID r0 r1).1.Positions tokenID =
      some { p with
        TokensOwed0 := p.TokensOwed0 - min r0 p.TokensOwed0
        TokensOwed1 := p.TokensOwed1 - min r1 p.TokensOwed1 } ∧
    (0 ≤ p.TokensOwed0 → 0 ≤ p.TokensOwed0 - min r0 p.TokensOwed0) ∧
    (0 ≤ p.TokensOwed1 → 0 ≤ p.TokensOwed1 - min r1 p.TokensOwed1) := by
  unfold TokenPositionManager.HandleCollect
  rw [h]
  simp only []
  unfold TokenPosition.Collect
  simp only [collect_if_min]
  refine ⟨trivial, trivial, trivial, ?_, ?_, ?_⟩
  · rw [alookup_aset_self]
  · intro _
    exact sub_nonneg.2 (min_le_right _ _)
  · intro _
    exact sub_nonneg.2 (min_le_right _ _)

theorem increase_fields_frame (p : TokenPosition) (δ f0 f1 : ℚ) :
    ((p.IncreaseLiquidity δ f0 f1).1).TokenID = p.TokenID ∧
    ((p.IncreaseLiquidity δ f0 f1).1).Owner = p.Owner ∧
    ((p.IncreaseLiquidity δ f0 f1).1).Pool = p.Pool ∧
    ((p.IncreaseLiquidity δ f0 f1).1).TickLower = p.TickLower ∧
    ((p.IncreaseLiquidity δ f0 f1).1).TickUpper = p.TickUpper := by
  unfold TokenPosition.IncreaseLiquidity
  split
  · exact ⟨rfl, rfl, rfl, rfl, rfl⟩
  · rcases hq : LiquidityAddDelta p.Liquidity δ with e | lnext
    · exact ⟨rfl, rfl, rfl, rfl, rfl⟩
    · simp only []
      split
      · exact ⟨rfl, rfl, rfl, rfl, rfl⟩
      · exact ⟨rfl, rfl, rfl, rfl, rfl⟩

/-- Claim C10: a `HandleMint` on an existing tokenID leaves the stored
position's identity fields (TokenID, Owner, Pool, TickLower, TickUpper)
and both indices unchanged, ignoring the call's owner/pool/tick arguments;
other map entries are untouched. -/
theorem c10_mint_existing_ignores_identity_args (tpm : TokenPositionManager) (tokenID : ℕ) (owner pool : String)
    (lo hi : ℤ) (amt f0 f1 : ℚ) (p : TokenPosition)
    (h : alookup tpm.Positions tokenID = some p) :
    (alookup (tpm.HandleMint tokenID owner pool lo hi amt f0 f1).1.Positions
        tokenID).map
        (fun q => (q.TokenID, q.Owner, q.Pool, q.TickLower, q.TickUpper)) =
      some (p.TokenID, p.Owner, p.Pool, p.TickLower, p.TickUpper) ∧
    (tpm.HandleMint tokenID owner pool lo hi amt f0 f1).1.OwnerTokens =
      tpm.OwnerTokens ∧
    (tpm.HandleMint tokenID owner pool lo hi amt f0 f1).1.PoolTokens =
      tpm.PoolTokens ∧
    ∀ tid, tid ≠ tokenID →
      alookup (tpm.HandleMint tokenID owner pool lo hi amt f0 f1).1.Positions
          tid =
        alookup tpm.Positions tid := by
  have hf := increase_fields_frame p amt f0 f1
  unfold TokenPositionManager.HandleMint
  rw [h]
  simp only []
  refine ⟨?_, trivial, trivial, ?_⟩
  · rw [alookup_aset_self]
    simp only [Option.map_some']
    rw [hf.1, hf.2.1, hf.2.2.1, hf.2.2.2.1, hf.2.2.2.2]
  · intro tid htid
    exact alookup_aset_ne _ _ (fun hc => htid hc.symm)

theorem guardC6 : v1ShouldExit (100000000000000000000000000000 : ℚ) sC6 = true := by
  norm_num [v1ShouldExit, sC6, epsilonDecimal]

theorem hC6wV1 : HandleSwapV1 trivialOracle poolC6 true 0
    (some 100000000000000000000000000000) true =
    Except.ok (poolC6, 0, 0, 1000000000000000000000000000000) := by
  have hval : swapValidation true (100000000000000000000000000000 : ℚ)
      poolC6.SqrtPriceX96 "RATIO_MIN" "RATIO_CURRENT" "RATIO_MAX"
      "RATIO_CURRENT" = none := by
    norm_num [swapValidation, poolC6, MinSqrtRatio]
  unfold HandleSwapV1 handleSwapWith
  simp only []
  rw [hval]
  have h01 : ((0:ℚ) ≤ 0) = True := by norm_num
  simp only [h01, if_true]
  rw [show (1024:ℕ) = 1023 + 1 from rfl, swapLoopV1_succ, guardC6, if_pos rfl]
  norm_num [sC6, poolC6]

theorem hC6wV2 : HandleSwapV2 trivialOracle poolC6 true 0
    (some 100000000000000000000000000000) true =
    Except.ok (poolC6, 0, 0, 1000000000000000000000000000000) := by
  have hval : swapValidation true (100000000000000000000000000000 : ℚ)
      poolC6.SqrtPriceX96
      "price limit below minimum allowed ratio"
      "price limit must be less than current price for token0 -> token1 swap"
      "price limit above maximum allowed ratio"
      "price limit must be greater than current price for token1 -> token0 swap" =
      none := by
    norm_num [swapValidation, poolC6, MinSqrtRatio]
  unfold HandleSwapV2 handleSwapWith
  simp only []
  rw [hval]
  have h01 : ((0:ℚ) ≤ 0) = True := by norm_num
  simp only [h01, if_true]
  rw [show (1000:ℕ) = 999 + 1 from rfl, swapLoopV2_succ,
    if_pos (Or.inl (by norm_num [sC6]))]
  norm_num [sC6, poolC6]

theorem handleSwapV1_stall_break :
    HandleSwapV1 stallOracle poolC3 true 1
        (some 100000000000000000000000000000) false =
      Except.ok (poolC3, 0, 0, 1000000000000000000000000000000) := by
  refine Eq.trans
    (handleSwapWith_ok swapLoopV1 1024 "RATIO_MIN" "RATIO_CURRENT"
      "RATIO_MAX" "RATIO_CURRENT" stallOracle poolC3 true 1
      100000000000000000000000000000 false [] sC3
      (by norm_num [swapValidation, poolC3, MinSqrtRatio]) ?_) ?_
  · show swapLoopV1 stallOracle ctxOfC3 1024 poolC3.TickManager s0OfC3 =
      Except.ok ([], sC3)
    rw [ctxOfC3_eq, s0OfC3_eq]
    exact loopC3V1 1024
  · norm_num [sC3, poolC3]

theorem handleSwapV2_stall_error :
    HandleSwapV2 stallOracle poolC3 true 1
        (some 100000000000000000000000000000) false =
      Except.error "excessive loop iterations in swap calculation (>1000)" := by
  refine handleSwapWith_error swapLoopV2 1000
      "price limit below minimum allowed ratio"
      "price limit must be less than current price for token0 -> token1 swap"
      "price limit above maximum allowed ratio"
      "price limit must be greater than current price for token1 -> token0 swap"
      stallOracle poolC3 true 1 100000000000000000000000000000 false _
      (by norm_num [swapValidation, poolC3, MinSqrtRatio]) ?_
  show swapLoopV2 stallOracle ctxOfC3 1000 poolC3.TickManager s0OfC3 =
    Except.error "excessive loop iterations in swap calculation (>1000)"
  rw [ctxOfC3_eq, s0OfC3_eq]
  exact loopC3V2 1000

/-- Claim C1: processing an NFT DecreaseLiquidity event with positive
liquidity `5` against an existing position holding liquidity `10` does
*not* succeed: the event liquidity is negated both in
`processDecreaseLiquidityEvent` and in `HandleDecreaseLiquidity`, so
`TokenPosition.DecreaseLiquidity` receives a positive delta and rejects
it, leaving the state unchanged. -/
theorem c1_decrease_event_processing_fails :
    processDecreaseLiquidityEvent stC1 evC1 =
      (stC1,
        some "failed to handle decrease liquidity: liquidity delta must be negative") ∧
    (0:ℚ) < evC1.Liquidity ∧ evC1.Liquidity ≤ posC1.Liquidity := by
  refine ⟨?_, by norm_num [evC1], by norm_num [evC1, posC1]⟩
  norm_num [processDecreaseLiquidityEvent, TokenPositionManager.GetPosition,
    stC1, posC1, poolC1, evC1, alookup, GetFeeGrowthInside,
    TokenPositionManager.HandleDecreaseLiquidity,
    TokenPosition.DecreaseLiquidity, aset]
  rfl

/-- Claim C2: the first source variant's swap loop exits through its
epsilon guard in a state whose remaining amount is non-zero and whose
price differs from the limit, contradicting exact-equality
termination. -/
theorem c2_v1_swap_loop_exits_on_epsilon :
    swapLoopV1 trivialOracle ctxC2 1024 [] stateC2 = Except.ok ([], stateC2) ∧
      stateC2.amountSpecifiedRemaining ≠ 0 ∧
      stateC2.sqrtPriceX96 ≠ ctxC2.sqrtPriceLimitX96 := by
  have h1 : |stateC2.amountSpecifiedRemaining| ≤ epsilonDecimal := by
    show |(1:ℚ)/200000| ≤ 1/100000
    rw [abs_of_pos] <;> norm_num
  have hguard : v1ShouldExit ctxC2.sqrtPriceLimitX96 stateC2 = true := by
    unfold v1ShouldExit
    rw [if_pos h1, Bool.true_or]
  refine ⟨?_, by norm_num [stateC2], by norm_num [stateC2, ctxC2]⟩
  rw [show (1024:ℕ) = 1023 + 1 from rfl, swapLoopV1_succ, hguard, if_pos rfl]

/-- Claim C3: with a swap step that makes no progress, the first source
variant's `HandleSwap` runs out of its 1024-iteration cap and returns
`ok` with partial amounts (no error), while the second variant fails
with its fatal iteration error, as the claim demands. -/
theorem c3_v1_iteration_cap_returns_without_error :
    HandleSwapV1 stallOracle poolC3 true 1
        (some 100000000000000000000000000000) false =
      Except.ok (poolC3, 0, 0, 1000000000000000000000000000000) ∧
    HandleSwapV2 stallOracle poolC3 true 1
        (some 100000000000000000000000000000) false =
      Except.error "excessive loop iterations in swap calculation (>1000)" :=
  ⟨handleSwapV1_stall_break, handleSwapV2_stall_error⟩

/-- Claim C4: the first source variant's resolver accepts its first
candidate although the candidate's dry-run swap produces `amount0 =
10001` while the observed event carries `amount0 = 10000` — an
approximate (0.01 percent) match, not an exact one. -/
theorem c4_v1_resolver_accepts_inexact_candidate :
    ResolveInputFromSwapResultEventV1 oracleC4 poolC4 eventC4 =
      Except.ok (10000, some 100000000000000000000000000000) ∧
    HandleSwapV1 oracleC4 poolC4 true 10000
        (some 100000000000000000000000000000) true =
      Except.ok (poolC4, 10001, -500, 100000000000000000000000000000) ∧
    (10001 : ℚ) ≠ eventC4.Amount0 :=
  ⟨c4resolverV1, hv1C4, by norm_num [eventC4]⟩

/-- Claim C5: `HandleTransfer` reassigns `position.Owner` *before*
validating `from`, so a transfer with a wrong `from` returns an error
but leaves `Positions[1].Owner = "c"` while the `OwnerTokens` index
still lists token 1 under `"a"` — the indices are no longer inverses of
the position map. -/
theorem c5_failed_transfer_corrupts_owner_index :
    ((TokenPositionManager.HandleMint NewTokenPositionManager 1 "a" "p"
          (-60) 60 5 0 0).1.HandleTransfer 1 "b" "c").2 =
      some "token owner mismatch: expected a, got b" ∧
    (alookup ((TokenPositionManager.HandleMint NewTokenPositionManager 1 "a"
          "p" (-60) 60 5 0 0).1.HandleTransfer 1 "b" "c").1.Positions 1).map
        TokenPosition.Owner = some "c" ∧
    agetD ((TokenPositionManager.HandleMint NewTokenPositionManager 1 "a" "p"
          (-60) 60 5 0 0).1.HandleTransfer 1 "b" "c").1.OwnerTokens "a" [] =
      [1] ∧
    agetD ((TokenPositionManager.HandleMint NewTokenPositionManager 1 "a" "p"
          (-60) 60 5 0 0).1.HandleTransfer 1 "b" "c").1.OwnerTokens "c" [] =
      [] := by
  refine ⟨?_, ?_, ?_, ?_⟩ <;>
    · norm_num [TokenPositionManager.HandleMint,
        TokenPositionManager.CreatePosition, NewTokenPositionManager,
        NewTokenPosition, TokenPosition.IncreaseLiquidity, feeAccrual, decDiv,
        decRoundDown0, decTrunc, roundHalfAway, ceilViaFloor, Q128,
        LiquidityAddDelta, AddDelta, MaxUint128, alookup, aset, agetD,
        TokenPositionManager.HandleTransfer]
      try rfl

/-- Claim C6: a static (`isStatic = true`) `HandleSwap` that returns
without error leaves the pool record — price, tick, liquidity, fee
growth, tick map and position store — exactly as it was, in both source
variants, for every oracle, pool and argument list. -/
theorem c6_static_swap_preserves_pool (o : SwapMathOracle) (p : CorePool)
    (z : Bool) (a : ℚ) (lim : Option ℚ) (r : CorePool × ℚ × ℚ × ℚ) :
    (HandleSwapV1 o p z a lim true = Except.ok r → r.1 = p) ∧
    (HandleSwapV2 o p z a lim true = Except.ok r → r.1 = p) := by
  constructor <;> intro h
  · unfold HandleSwapV1 handleSwapWith at h
    simp only [eq_self_iff_true, if_true] at h
    split at h
    · exact Except.noConfusion h
    · rcases hloop : swapLoopV1 o _ 1024 p.TickManager _ with e | ⟨tm1, s1⟩ <;>
        rw [hloop] at h
      · exact Except.noConfusion h
      · cases h
        show { p with TickManager := tm1 } = p
        have htm := swapLoopV1_static_tm rfl 1024 _ _ _ hloop
        simp only [] at htm
        rw [htm]
  · unfold HandleSwapV2 handleSwapWith at h
    simp only [eq_self_iff_true, if_true] at h
    split at h
    · exact Except.noConfusion h
    · rcases hloop : swapLoopV2 o _ 1000 p.TickManager _ with e | ⟨tm1, s1⟩ <;>
        rw [hloop] at h
      · exact Except.noConfusion h
      · cases h
        show { p with TickManager := tm1 } = p
        have htm := swapLoopV2_static_tm rfl 1000 _ _ _ hloop
        simp only [] at htm
        rw [htm]

theorem c6_static_swap_preserves_pool_witness :
    HandleSwapV1 trivialOracle poolC6 true 0
        (some 100000000000000000000000000000) true =
      Except.ok (poolC6, 0, 0, 1000000000000000000000000000000) ∧
    ((poolC6, (0:ℚ), (0:ℚ), (1000000000000000000000000000000:ℚ)) :
        CorePool × ℚ × ℚ × ℚ).1 = poolC6 ∧
    ((poolC6, (0:ℚ), (0:ℚ), (1000000000000000000000000000000:ℚ)) :
        CorePool × ℚ × ℚ × ℚ).1 = poolC6 :=
  ⟨hC6wV1,
    (c6_static_swap_preserves_pool trivialOracle poolC6 true 0
      (some 100000000000000000000000000000)
      (poolC6, 0, 0, 1000000000000000000000000000000)).1 hC6wV1,
    (c6_static_swap_preserves_pool trivialOracle poolC6 true 0
      (some 100000000000000000000000000000)
      (poolC6, 0, 0, 1000000000000000000000000000000)).2 hC6wV2⟩

/-- Claim C7 (amended): `TokensOwed` is non-decreasing across
`IncreaseLiquidity` and `DecreaseLiquidity` *provided* the supplied
fee-growth-inside values are at least the stored snapshots, the
position's liquidity is non-negative and the decrease's withdrawal
amounts are non-negative; `HandleTransfer` never changes any
position's owed tokens.  (Unconditionally the source claim is false:
see the counterexample.) -/
theorem c7_tokens_owed_monotone_amended (p : TokenPosition)
    (δ f0 f1 a0 a1 : ℚ) (hL : 0 ≤ p.Liquidity)
    (h0 : p.FeeGrowthInside0LastX128 ≤ f0)
    (h1 : p.FeeGrowthInside1LastX128 ≤ f1) (ha0 : 0 ≤ a0) (ha1 : 0 ≤ a1) :
    (p.TokensOwed0 ≤ ((p.IncreaseLiquidity δ f0 f1).1).TokensOwed0 ∧
      p.TokensOwed1 ≤ ((p.IncreaseLiquidity δ f0 f1).1).TokensOwed1) ∧
    (p.TokensOwed0 ≤ ((p.DecreaseLiquidity δ f0 f1 a0 a1).1).TokensOwed0 ∧
      p.TokensOwed1 ≤ ((p.DecreaseLiquidity δ f0 f1 a0 a1).1).TokensOwed1) ∧
    (∀ (tpm : TokenPositionManager) (tid : ℕ) (from_ to_ : String) (tid' : ℕ),
      (alookup (tpm.HandleTransfer tid from_ to_).1.Positions tid').map
          (fun q => (q.TokensOwed0, q.TokensOwed1)) =
        (alookup tpm.Positions tid').map
          (fun q => (q.TokensOwed0, q.TokensOwed1))) :=
  ⟨increase_owed_mono p δ f0 f1 hL h0 h1,
    decrease_owed_mono p δ f0 f1 a0 a1 hL h0 h1 ha0 ha1,
    fun tpm tid from_ to_ tid' => transfer_owed_frame tpm tid from_ to_ tid'⟩

theorem c7_tokens_owed_monotone_amended_witness :
    (0:ℚ) ≤ posC7w.Liquidity ∧
    posC7w.TokensOwed0 ≤ ((posC7w.IncreaseLiquidity 1 3 5).1).TokensOwed0 :=
  ⟨by norm_num [posC7w],
    ((c7_tokens_owed_monotone_amended posC7w 1 3 5 1 0 (by norm_num [posC7w])
      (by norm_num [posC7w]) (by norm_num [posC7w]) (by norm_num)
      (by norm_num)).1).1⟩

/-- Claim C7 counterexample: a `HandleDecreaseLiquidity` whose supplied
fee-growth-inside (`0`) is below the stored snapshot (`Q128`) *lowers*
`TokensOwed0` from `0` to `-1` while succeeding — a non-collect ledger
operation that decreases the owed tokens, refuting the unconditional
claim. -/
theorem c7_tokens_owed_decrease_counterexample :
    (alookup (TokenPositionManager.HandleDecreaseLiquidity tpmC7 7 1 0 0 0
        0).1.Positions 7).map TokenPosition.TokensOwed0 = some (-1) ∧
    (TokenPositionManager.HandleDecreaseLiquidity tpmC7 7 1 0 0 0 0).2 =
      none ∧
    posC7.TokensOwed0 = 0 := by
  norm_num [TokenPositionManager.HandleDecreaseLiquidity, tpmC7, posC7,
    alookup, aset, TokenPosition.DecreaseLiquidity, feeAccrual, decDiv,
    decRoundDown0, decTrunc, roundHalfAway, ceilViaFloor, Q128,
    LiquidityAddDelta, AddDelta, MaxUint128]

/-- Claim C9 (amended): a liquidity update with delta zero does not
succeed and accrues nothing: both `IncreaseLiquidity` and
`DecreaseLiquidity` reject a zero delta with an error and return the
position unchanged, so "pure pokes" are unsupported by the token
ledger. -/
theorem c9_zero_delta_update_rejected_amended (p : TokenPosition)
    (f0 f1 a0 a1 : ℚ) :
    p.IncreaseLiquidity 0 f0 f1 =
      (p, some "liquidity delta must be positive") ∧
    p.DecreaseLiquidity 0 f0 f1 a0 a1 =
      (p, some "liquidity delta must be negative") := by
  constructor
  · unfold TokenPosition.IncreaseLiquidity
    rw [if_pos (Or.inl rfl)]
  · unfold TokenPosition.DecreaseLiquidity
    rw [if_pos (Or.inl rfl)]

/-- Claim C9 counterexample: the concrete zero-delta updates on
`posC9` fail with errors instead of succeeding as a fee-accruing
poke. -/
theorem c9_zero_delta_poke_fails_counterexample :
    posC9.IncreaseLiquidity 0 1 2 =
      (posC9, some "liquidity delta must be positive") ∧
    posC9.DecreaseLiquidity 0 1 2 3 4 =
      (posC9, some "liquidity delta must be negative") := by
  constructor
  · unfold TokenPosition.IncreaseLiquidity
    rw [if_pos (Or.inl rfl)]
  · unfold TokenPosition.DecreaseLiquidity
    rw [if_pos (Or.inl rfl)]

theorem c8_collect_truncates_at_owed_witness :
    alookup tpmC8.Positions 8 = some posC8 ∧
    (tpmC8.HandleCollect 8 7 (-3)).2.1 = min (7:ℚ) posC8.TokensOwed0 :=
  ⟨by norm_num [tpmC8, alookup],
    (c8_collect_truncates_at_owed tpmC8 8 7 (-3) posC8
      (by norm_num [tpmC8, alookup])).1⟩

theorem c10_mint_existing_ignores_identity_args_witness :
    alookup tpmC10.Positions 10 = some posC10 ∧
    (alookup (tpmC10.HandleMint 10 "z" "q" 1 2 5 0 0).1.Positions 10).map
        (fun q => (q.TokenID, q.Owner, q.Pool, q.TickLower, q.TickUpper)) =
      some (posC10.TokenID, posC10.Owner, posC10.Pool, posC10.TickLower,
        posC10.TickUpper) :=
  ⟨by norm_num [tpmC10, alookup],
    (c10_mint_existing_ignores_identity_args tpmC10 10 "z" "q" 1 2 5 0 0
      posC10 (by norm_num [tpmC10, alookup])).1⟩
